import Mathlib

/-!
Shallow embedding of the brace-cleanup pass of uncrustify
(src/brace_cleanup.cpp) and proofs about the claims on it.

The token list is modelled as a `List Chunk`; the doubly-linked chunk
pointers of the source become `Nat` indices into that list, with `none`
standing for the null chunk.  Process termination (`exit`) and the
`invalid_argument` throw in `close_statement` are modelled with an
`Except` result; the unbounded recursion of `close_statement` and the
driver loop are given an explicit fuel parameter (`Err.fuel` marks fuel
exhaustion, a model artifact that the termination theorem rules out).
-/

set_option autoImplicit false

namespace BraceCleanup

/-- Token types (`E_Token` of the source).  Only the constructors consulted by
brace_cleanup.cpp are modelled; `CT_UNSAFE_BLOCK` stands for the source's
token for C# unsafe blocks and `CT_MACRO_KW` for the bare macro token of
Issue #2742 (renamed here only because of lexical constraints on names). -/
inductive E_Token where
  | CT_NONE
  | CT_EOF
  | CT_PP_DEFINE
  | CT_PP_IF
  | CT_PP_ELSE
  | CT_PP_ENDIF
  | CT_PP_OTHER
  | CT_PREPROC
  | CT_PREPROC_BODY
  | CT_NEWLINE
  | CT_COMMENT
  | CT_ATTRIBUTE
  | CT_IGNORED
  | CT_WORD
  | CT_NUMBER
  | CT_PAREN_OPEN
  | CT_PAREN_CLOSE
  | CT_SPAREN_OPEN
  | CT_SPAREN_CLOSE
  | CT_FPAREN_OPEN
  | CT_FPAREN_CLOSE
  | CT_BRACE_OPEN
  | CT_BRACE_CLOSE
  | CT_VBRACE_OPEN
  | CT_VBRACE_CLOSE
  | CT_ANGLE_OPEN
  | CT_ANGLE_CLOSE
  | CT_MACRO_OPEN
  | CT_MACRO_CLOSE
  | CT_SQUARE_OPEN
  | CT_SQUARE_CLOSE
  | CT_SEMICOLON
  | CT_VSEMICOLON
  | CT_IF
  | CT_ELSE
  | CT_ELSEIF
  | CT_CONSTEXPR
  | CT_FOR
  | CT_WHILE
  | CT_WHILE_OF_DO
  | CT_DO
  | CT_SWITCH
  | CT_CASE
  | CT_DEFAULT
  | CT_BREAK
  | CT_TRY
  | CT_CATCH
  | CT_FINALLY
  | CT_WHEN
  | CT_USING
  | CT_USING_STMT
  | CT_SYNCHRONIZED
  | CT_LOCK
  | CT_D_VERSION
  | CT_D_VERSION_IF
  | CT_D_SCOPE
  | CT_D_SCOPE_IF
  | CT_VERSION
  | CT_SCOPE
  | CT_BODY
  | CT_UNITTEST
  | CT_UNSAFE_BLOCK
  | CT_VOLATILE
  | CT_GETSET
  | CT_FUNCTION
  | CT_ENUM
  | CT_DECLSPEC
  | CT_ASSIGN
  | CT_RETURN
  | CT_NAMESPACE
  | CT_AUTORELEASEPOOL
  | CT_ARITH
  | CT_SHIFT
  | CT_COMPARE
  | CT_STAR
  | CT_BOOL
  | CT_MINUS
  | CT_PLUS
  | CT_CARET
  | CT_THROW
  | CT_GOTO
  | CT_CONTINUE
  | CT_COMMA
  | CT_NOT
  | CT_INV
  | CT_COLON
  | CT_QUESTION
  | CT_OC_END
  | CT_MACRO_KW
deriving DecidableEq, Repr

/-- Stages of the complex-statement state machine (`brace_stage_e`). -/
inductive BraceStage where
  | NONE
  | PAREN1
  | OP_PAREN1
  | BRACE2
  | BRACE_DO
  | ELSE
  | ELSEIF
  | WHILE
  | CATCH
  | CATCH_WHEN
  | WOD_PAREN
  | WOD_SEMI
deriving DecidableEq, Repr

/-- Chunk flag bits (the `PCF_*` bits consulted by this pass). -/
structure PcfFlags where
  stmt_start : Bool := false
  expr_start : Bool := false
  in_preproc : Bool := false
  in_sparen : Bool := false
  in_for : Bool := false
  in_namespace : Bool := false
  long_block : Bool := false
deriving DecidableEq, Repr

/-- A token node.  `parent_ref` models the `SetParent` chunk-pointer member
(case/break/switch linkage) by keeping the target's type and original line,
the only data this pass ever puts there. -/
structure Chunk where
  ctype : E_Token := .CT_NONE
  parent_type : E_Token := .CT_NONE
  level : Nat := 0
  brace_level : Nat := 0
  pp_level : Nat := 0
  flags : PcfFlags := {}
  str : String := ""
  orig_line : Nat := 0
  orig_col : Nat := 0
  column : Nat := 0
  parent_ref : Option (E_Token × Nat) := none
deriving DecidableEq, Repr

/-- The null chunk (`Chunk::NullChunkPtr`): type `CT_NONE`, no flags. -/
def Chunk.null : Chunk := {}

def Chunk.IsSemicolon (c : Chunk) : Bool :=
  c.ctype = .CT_SEMICOLON ∨ c.ctype = .CT_VSEMICOLON

def Chunk.IsComment (c : Chunk) : Bool := c.ctype = .CT_COMMENT

def Chunk.IsCommentOrNewline (c : Chunk) : Bool :=
  c.ctype = .CT_COMMENT ∨ c.ctype = .CT_NEWLINE

def Chunk.IsNewline (c : Chunk) : Bool := c.ctype = .CT_NEWLINE

/-- Entry of the paren stack (`paren_stack_entry_t`).  `pcIdx` models the
back-pointer to the opener chunk as an index into the token list (kept in
sync on insertions, as the source's raw pointer is automatically). -/
structure PSEntry where
  etype : E_Token := .CT_NONE
  parent : E_Token := .CT_NONE
  stage : BraceStage := .NONE
  pcIdx : Option Nat := none
deriving DecidableEq, Repr

/-- The sentinel entry at the bottom of every freshly constructed frame
(invariant 1 of the spec: `frame.stack[0].type == EOF`). -/
def eofEntry : PSEntry := { etype := .CT_EOF }

/-- A parse frame (`ParseFrame`).  The stack is kept top-first:
`stack.head` is `frm.top()`. -/
structure ParseFrame where
  stack : List PSEntry := [eofEntry]
  level : Nat := 0
  brace_level : Nat := 0
  pp_level : Nat := 0
  sparen_count : Nat := 0
  stmt_count : Nat := 0
  expr_count : Nat := 0
deriving DecidableEq, Repr

def ParseFrame.top (f : ParseFrame) : PSEntry := f.stack.headD eofEntry

/-- `frm.prev()`: the entry just below the top. -/
def ParseFrame.prevE (f : ParseFrame) : PSEntry := f.stack.getD 1 eofEntry

def ParseFrame.size (f : ParseFrame) : Nat := f.stack.length

/-- `frm.pop()`.  Popping the bottom sentinel would be the source's
"programmer error" underflow; the model leaves a singleton stack intact. -/
def ParseFrame.pop (f : ParseFrame) : ParseFrame :=
  { f with stack := if f.stack.length ≤ 1 then f.stack else f.stack.tail }

/-- `frm.push(pc, stage)`: per the spec the new entry takes the opener's
type and parent type; pushing the null chunk gives a `CT_NONE` entry. -/
def ParseFrame.pushC (f : ParseFrame) (idx : Option Nat) (c : Chunk)
    (stage : BraceStage) : ParseFrame :=
  { f with stack := { etype := c.ctype, parent := c.parent_type,
                      stage := stage, pcIdx := idx } :: f.stack }

def ParseFrame.setTop (f : ParseFrame) (g : PSEntry → PSEntry) : ParseFrame :=
  { f with stack := match f.stack with
                    | [] => []
                    | e :: r => g e :: r }

def ParseFrame.setTopStage (f : ParseFrame) (s : BraceStage) : ParseFrame :=
  f.setTop (fun e => { e with stage := s })

def ParseFrame.setTopType (f : ParseFrame) (t : E_Token) : ParseFrame :=
  f.setTop (fun e => { e with etype := t })

def ParseFrame.setTopParent (f : ParseFrame) (t : E_Token) : ParseFrame :=
  f.setTop (fun e => { e with parent := t })

/-- Index bookkeeping when a chunk is inserted at list position `j`: every
stored opener index at or past `j` shifts by one (the source's raw pointers
track this automatically). -/
def PSEntry.shiftIdx (j : Nat) (e : PSEntry) : PSEntry :=
  { e with pcIdx := e.pcIdx.map (fun i => if j ≤ i then i + 1 else i) }

def ParseFrame.shiftIdx (j : Nat) (f : ParseFrame) : ParseFrame :=
  { f with stack := f.stack.map (PSEntry.shiftIdx j) }

/-- The scan-global state (`BraceState`). -/
structure BraceState where
  frames : List ParseFrame := []
  in_preproc : E_Token := .CT_NONE
  pp_level : Nat := 0
  consumed : Bool := false
deriving DecidableEq, Repr

/-- Warnings (`LOG_FMT(LWARN, ...)` sites), identified by site. -/
inductive Warn where
  | closerInfo
  | closerExpected
  | unexpectedCloser
  | expectedSemiWOD
  | expectedWhile
  | expectedParen
  | badTOS
  | unbalancedDefine
deriving DecidableEq, Repr

/-- Abnormal outcomes: `exited code` models `exit(code)`, `thrown` the
`invalid_argument` throw, `fuel` is the model's fuel exhaustion. -/
inductive Err where
  | exited (code : Nat)
  | thrown
  | fuel
deriving DecidableEq, Repr

/-- `exit(EXIT_FAILURE)` (stdlib; 1 on the target platforms). -/
def EXIT_FAILURE : Nat := 1

/-- `exit(EX_SOFTWARE)` (sysexits.h; 70, "internal software error"). -/
def EX_SOFTWARE : Nat := 70

/-- The whole mutable state threaded through the pass: the token list, the
driver's current-chunk index, the active parse frame, the scan-global brace
state and the warnings emitted so far. -/
structure PState where
  toks : List Chunk := []
  cur : Nat := 0
  frm : ParseFrame := {}
  bs : BraceState := {}
  warnings : List Warn := []
deriving DecidableEq, Repr

/-! ### List helpers -/

def listModifyAt {α : Type} : Nat → (α → α) → List α → List α
  | _, _, [] => []
  | 0, f, x :: l => f x :: l
  | n+1, f, x :: l => x :: listModifyAt n f l

def listInsertAt {α : Type} : Nat → α → List α → List α
  | 0, a, l => a :: l
  | _+1, a, [] => [a]
  | n+1, a, x :: l => x :: listInsertAt n a l

/-- Chunk lookup at a `Nat` index; out of range gives the null chunk. -/
def tgetN (toks : List Chunk) (i : Nat) : Chunk := toks.getD i Chunk.null

/-- Chunk lookup at an optional index; `none` is the null chunk. -/
def tgetO (toks : List Chunk) : Option Nat → Chunk
  | none => Chunk.null
  | some i => tgetN toks i

/-- `IsNotNullChunk` for a position. -/
def validPos (toks : List Chunk) : Option Nat → Bool
  | none => false
  | some i => i < toks.length

/-! ### Navigation (the `GetPrev*` / `GetNext*` chunk queries) -/

/-- Backward scan: greatest `j < i` whose chunk satisfies `p`. -/
def prevIdxSat (toks : List Chunk) (p : Chunk → Bool) : Nat → Option Nat
  | 0 => none
  | i+1 => if p (tgetN toks i) then some i else prevIdxSat toks p i

/-- Forward scan from `j` (inclusive), with fuel. -/
def nextIdxSatAux (toks : List Chunk) (p : Chunk → Bool) : Nat → Nat → Option Nat
  | _, 0 => none
  | j, fl+1 =>
    if j < toks.length then
      (if p (tgetN toks j) then some j else nextIdxSatAux toks p (j+1) fl)
    else none

/-- Forward scan: least valid `j > i` whose chunk satisfies `p`. -/
def nextIdxSat (toks : List Chunk) (p : Chunk → Bool) (i : Nat) : Option Nat :=
  nextIdxSatAux toks p (i+1) toks.length

def rawPrev (i : Nat) : Option Nat := if i = 0 then none else some (i - 1)

def rawNext (toks : List Chunk) (i : Nat) : Option Nat :=
  if i + 1 < toks.length then some (i + 1) else none

/-- `GetPrevNcNnl`. -/
def prevNcNnl (toks : List Chunk) (i : Nat) : Option Nat :=
  prevIdxSat toks (fun c => ¬ c.IsCommentOrNewline) i

/-- `GetPrevNc`. -/
def prevNc (toks : List Chunk) (i : Nat) : Option Nat :=
  prevIdxSat toks (fun c => ¬ c.IsComment) i

/-- `GetNextNcNnl`. -/
def nextNcNnl (toks : List Chunk) (i : Nat) : Option Nat :=
  nextIdxSat toks (fun c => ¬ c.IsCommentOrNewline) i

/-- `GetNextNc`. -/
def nextNc (toks : List Chunk) (i : Nat) : Option Nat :=
  nextIdxSat toks (fun c => ¬ c.IsComment) i

/-! ### State operations -/

/-- Mutate the chunk at index `i`. -/
def setChunk (st : PState) (i : Nat) (g : Chunk → Chunk) : PState :=
  { st with toks := listModifyAt i g st.toks }

/-- Insert a chunk at position `j`, shifting the stored indices (current
chunk, opener back-pointers in all frames) exactly as the source's linked
list keeps raw pointers valid. -/
def PState.insertChunk (st : PState) (j : Nat) (c : Chunk) : PState :=
  { st with
    toks := listInsertAt j c st.toks,
    cur := if j ≤ st.cur then st.cur + 1 else st.cur,
    frm := st.frm.shiftIdx j,
    bs := { st.bs with frames := st.bs.frames.map (ParseFrame.shiftIdx j) } }

def addWarn (st : PState) (w : Warn) : PState :=
  { st with warnings := w :: st.warnings }

def setFrm (st : PState) (f : ParseFrame → ParseFrame) : PState :=
  { st with frm := f st.frm }

/-- Error-propagating sequencing for `PState × Except Err α` results. -/
def mbind {α β : Type} (r : PState × Except Err α)
    (f : PState → α → PState × Except Err β) : PState × Except Err β :=
  match r with
  | (st, Except.ok a) => f st a
  | (st, Except.error e) => (st, Except.error e)

/-! ### Configuration (options and language, reified per spec §9) -/

structure Config where
  lang_pawn : Bool := false
  lang_d : Bool := false
  lang_cs : Bool := false
  lang_cpp : Bool := false
  lang_oc : Bool := false
  pp_warn_unbalanced_if : Bool := false
  indent_else_if : Bool := false
  indent_using_block : Bool := true
  indent_namespace : Bool := false
  indent_namespace_single_indent : Bool := false
  indent_namespace_limit : Nat := 0
deriving DecidableEq, Repr

/-- Modelled from the spec: the opener/closer pairing behind the source
idiom `(E_Token)(frm.top().type + 1)` (token_enum.h is not under src/; the
spec directs an explicit pairing table, closers identified by kind).
Non-openers map to `CT_NONE`, which no real chunk carries. -/
def succTok : E_Token → E_Token
  | .CT_PAREN_OPEN => .CT_PAREN_CLOSE
  | .CT_SPAREN_OPEN => .CT_SPAREN_CLOSE
  | .CT_FPAREN_OPEN => .CT_FPAREN_CLOSE
  | .CT_BRACE_OPEN => .CT_BRACE_CLOSE
  | .CT_VBRACE_OPEN => .CT_VBRACE_CLOSE
  | .CT_ANGLE_OPEN => .CT_ANGLE_CLOSE
  | .CT_MACRO_OPEN => .CT_MACRO_CLOSE
  | .CT_SQUARE_OPEN => .CT_SQUARE_CLOSE
  | _ => .CT_NONE

inductive PatternClass where
  | pcNone
  | braced
  | pbraced
  | opbraced
  | elseCls
deriving DecidableEq, Repr

/-- Modelled from the spec: `get_token_pattern_class` (keywords.cpp is not
under src/; spec §4.D gives the pattern classes in full). -/
def get_token_pattern_class : E_Token → PatternClass
  | .CT_DO | .CT_TRY | .CT_FINALLY | .CT_BODY | .CT_UNITTEST
  | .CT_UNSAFE_BLOCK | .CT_VOLATILE | .CT_GETSET => .braced
  | .CT_IF | .CT_ELSEIF | .CT_FOR | .CT_WHILE | .CT_SWITCH
  | .CT_USING_STMT | .CT_SYNCHRONIZED | .CT_LOCK | .CT_CATCH
  | .CT_D_VERSION_IF | .CT_D_SCOPE_IF => .pbraced
  | .CT_WHEN | .CT_VERSION | .CT_SCOPE => .opbraced
  | .CT_ELSE => .elseCls
  | _ => .pcNone

/-! ### insert_vbrace (brace_cleanup.cpp lines 1287-1371) -/

def bumpLevels (c : Chunk) : Chunk :=
  { c with level := c.level + 1, brace_level := c.brace_level + 1 }

/-- The rewind loop of `insert_vbrace`: step back over comments and
newlines, bumping their levels so they attach inside the virtual block. -/
def vbraceRewind : Nat → List Chunk → (List Chunk × Option Nat)
  | 0, toks =>
    if (tgetN toks 0).IsCommentOrNewline then (listModifyAt 0 bumpLevels toks, none)
    else (toks, some 0)
  | i+1, toks =>
    if (tgetN toks (i+1)).IsCommentOrNewline then
      vbraceRewind i (listModifyAt (i+1) bumpLevels toks)
    else (toks, some (i+1))

/-- The `CT_PREPROC_BODY` backward scan of `insert_vbrace`: step back to
the first chunk without `PCF_IN_PREPROC`. -/
def backScanNotPreproc : Nat → List Chunk → Option Nat
  | 0, toks => if (tgetN toks 0).flags.in_preproc then none else some 0
  | i+1, toks =>
    if (tgetN toks (i+1)).flags.in_preproc then backScanNotPreproc i toks
    else some (i+1)

/-- Modelled from the spec: the `PCF_COPY_FLAGS` filter of chunk.h (not
under src/) — "new nodes inherit a filtered subset of flags (those tagged
copy)"; the positional flags are copied, the start markers are not. -/
def copyFlags (fl : PcfFlags) : PcfFlags :=
  { in_preproc := fl.in_preproc, in_sparen := fl.in_sparen,
    in_for := fl.in_for, in_namespace := fl.in_namespace }

/-- `insert_vbrace(pc, after, frm)`.  Returns the updated state and the
index of the inserted chunk (`none` models the `NullChunkPtr` returns;
inserting relative to the null chunk is a no-op). -/
def insert_vbrace (st : PState) (pos : Option Nat) (after : Bool) :
    PState × Option Nat :=
  match pos with
  | none => (st, none)
  | some i =>
    let pc := tgetN st.toks i
    let ch0 : Chunk := { parent_type := st.frm.top.etype,
                         orig_line := pc.orig_line,
                         level := st.frm.level,
                         pp_level := st.frm.pp_level,
                         brace_level := st.frm.brace_level,
                         flags := copyFlags pc.flags }
    if after then
      let ch := { ch0 with orig_col := pc.orig_col, ctype := .CT_VBRACE_CLOSE }
      (st.insertChunk (i+1) ch, some (i+1))
    else
      if i = 0 then (st, none)
      else
        let refIdx := i - 1
        let ref0 := tgetN st.toks refIdx
        let ch0 := if ¬ ref0.flags.in_preproc then
                     { ch0 with flags := { ch0.flags with in_preproc := false } }
                   else ch0
        let refIsComment := ref0.IsComment
        let pr := vbraceRewind refIdx st.toks
        let st := { st with toks := pr.1 }
        match pr.2 with
        | none => (st, none)
        | some r =>
          let refO2 : Option Nat :=
            if ¬ pc.flags.in_preproc ∧ (tgetN st.toks r).flags.in_preproc then
              if (tgetN st.toks r).ctype = .CT_PREPROC_BODY then
                backScanNotPreproc r st.toks
              else
                match rawNext st.toks r with
                | none => none
                | some r2 =>
                  if (tgetN st.toks r2).ctype = .CT_COMMENT then nextNc st.toks r2
                  else some r2
            else some r
          let refO3 : Option Nat :=
            if refIsComment then
              match refO2 with
              | none => none
              | some r2 => rawNext st.toks r2
            else refO2
          match refO3 with
          | none => (st, none)
          | some rf =>
            let refC := tgetN st.toks rf
            let ch := { ch0 with orig_line := refC.orig_line,
                                 orig_col := refC.orig_col,
                                 column := refC.column + refC.str.length + 1,
                                 pp_level := refC.pp_level,
                                 ctype := .CT_VBRACE_OPEN }
            (st.insertChunk (rf+1) ch, some (rf+1))

/-! ### maybe_while_of_do (lines 269-295) -/

/-- `maybe_while_of_do(pc)`.  Note: the source's "find the chunk before the
preprocessor" loop guards on `IsNullChunk() && TestFlags(PCF_IN_PREPROC)`,
which no chunk satisfies, so it never iterates; the embedding reflects the
code as written. -/
def maybe_while_of_do (toks : List Chunk) (i : Nat) : Bool :=
  match prevNcNnl toks i with
  | none => false
  | some p =>
    let prev := tgetN toks p
    if ¬ prev.flags.in_preproc then false
    else
      (prev.ctype = .CT_VBRACE_CLOSE ∨ prev.ctype = .CT_BRACE_CLOSE) ∧
        prev.parent_type = .CT_DO

/-! ### close_statement / handle_complex_close (lines 1123-1224, 1374-1447) -/

/-- Body of `handle_complex_close`, parameterised by the `close_statement`
continuation so the mutual recursion is fuelled in one place. -/
def handle_complex_close_go (cs : PState → PState × Except Err Bool)
    (st : PState) : PState × Except Err Bool :=
  let pc := tgetN st.toks st.cur
  let top := st.frm.top
  if top.stage = .PAREN1 then
    if (tgetO st.toks (rawNext st.toks st.cur)).ctype = .CT_WHEN then
      (setFrm st (fun f => f.setTop (fun e => { e with etype := pc.ctype, stage := .CATCH_WHEN })),
       Except.ok true)
    else
      (setFrm st (fun f => f.setTopStage .BRACE2), Except.ok false)
  else if top.stage = .BRACE2 then
    if top.etype = .CT_IF ∨ top.etype = .CT_ELSEIF then
      let st := setFrm st (fun f => f.setTopStage .ELSE)
      let nxt := nextNcNnl st.toks st.cur
      if ¬ validPos st.toks nxt ∨ (tgetO st.toks nxt).ctype ≠ .CT_ELSE then
        cs (setFrm st ParseFrame.pop)
      else (st, Except.ok false)
    else if top.etype = .CT_TRY ∨ top.etype = .CT_CATCH then
      let st := setFrm st (fun f => f.setTopStage .CATCH)
      let nc := tgetO st.toks (nextNcNnl st.toks st.cur)
      if nc.ctype ≠ .CT_CATCH ∧ nc.ctype ≠ .CT_FINALLY then
        cs (setFrm st ParseFrame.pop)
      else (st, Except.ok false)
    else
      cs (setFrm st ParseFrame.pop)
  else if top.stage = .BRACE_DO then
    (setFrm st (fun f => f.setTopStage .WHILE), Except.ok false)
  else if top.stage = .WOD_PAREN then
    (setFrm st (fun f => f.setTopStage .WOD_SEMI), Except.ok false)
  else if top.stage = .WOD_SEMI then
    cs (setFrm st ParseFrame.pop)
  else
    (addWarn st Warn.badTOS, Except.error (Err.exited EX_SOFTWARE))

/-- Tail of `close_statement` (lines 1439-1446): if the top still has a
stage, delegate to `handle_complex_close`. -/
def close_finish (cs : PState → PState × Except Err Bool) (st : PState) :
    PState × Except Err Bool :=
  if st.frm.top.stage ≠ .NONE then handle_complex_close_go cs st
  else (st, Except.ok false)

/-- The "hit the end of an unconsumed virtual brace" path of
`close_statement` (lines 1398-1434): place the VBRACE_CLOSE before the
current chunk, stamp it, pop the VBRACE_OPEN entry and restamp the current
chunk, yielding the state for the recursive call. -/
def close_vb_unconsumed (st : PState) : PState :=
  let vbcPos := prevNcNnl st.toks st.cur
  let st := setFrm st (fun f => { f with level := f.level - 1, brace_level := f.brace_level - 1 })
  let pr := insert_vbrace st vbcPos true
  let st := pr.1
  let st := match pr.2 with
            | some j => setChunk st j (fun c => { c with parent_type := st.frm.top.parent })
            | none => st
  let st := setFrm st ParseFrame.pop
  setChunk st st.cur (fun c => { c with level := st.frm.level, brace_level := st.frm.brace_level })

/-- The body of `close_statement`, parameterised by the recursive call. -/
def close_statement_body (cs : PState → PState × Except Err Bool) (st : PState) :
    PState × Except Err Bool :=
  if st.cur < st.toks.length then
    let st := if st.bs.consumed then
                setFrm st (fun f => { f with stmt_count := 0, expr_count := 0 })
              else st
    if st.frm.top.etype = .CT_VBRACE_OPEN then
      if st.bs.consumed then
        let st := (insert_vbrace st (some st.cur) true).1
        close_finish cs st
      else
        mbind (cs (close_vb_unconsumed st)) (fun st _ => (st, Except.ok true))
    else close_finish cs st
  else (st, Except.error Err.thrown)

/-- `close_statement(frm, pc, braceState)`.  `pc` is the driver's current
chunk (`st.cur`); an out-of-range index models the null-chunk throw. -/
def close_statement : Nat → PState → PState × Except Err Bool
  | 0, st => (st, Except.error Err.fuel)
  | fuel+1, st => close_statement_body (close_statement fuel) st

def handle_complex_close (fuel : Nat) (st : PState) : PState × Except Err Bool :=
  handle_complex_close_go (close_statement fuel) st

/-! ### check_complex_statements (lines 895-1120) -/

/-- The "check for CT_ELSE after CT_IF" loop (lines 915-936).
`some b` means check_complex_statements returns `b`; `none` means fall
through to the next block. -/
def ccs_else_loop (fuel : Nat) (st : PState) : PState × Except Err (Option Bool) :=
  if st.frm.top.stage = .ELSE then
    match fuel with
    | 0 => (st, Except.error Err.fuel)
    | fuel+1 =>
      if (tgetN st.toks st.cur).ctype = .CT_ELSE then
        (setFrm st (fun f => f.setTop (fun e => { e with etype := .CT_ELSE, stage := .ELSEIF })),
         Except.ok (some true))
      else
        let st := setFrm st ParseFrame.pop
        match close_statement (fuel+1) st with
        | (st2, Except.ok true) => (st2, Except.ok (some true))
        | (st2, Except.ok false) => ccs_else_loop fuel st2
        | (st2, Except.error e) => (st2, Except.error e)
  else (st, Except.ok none)

/-- The "check for CT_CATCH or CT_FINALLY after CT_TRY or CT_CATCH" loop
(lines 958-991). -/
def ccs_catch_loop (cfg : Config) (fuel : Nat) (st : PState) :
    PState × Except Err (Option Bool) :=
  if st.frm.top.stage = .CATCH then
    match fuel with
    | 0 => (st, Except.error Err.fuel)
    | fuel+1 =>
      let pc := tgetN st.toks st.cur
      if pc.ctype = .CT_CATCH ∨ pc.ctype = .CT_FINALLY then
        let ns : BraceStage :=
          if cfg.lang_cs then (if pc.ctype = .CT_CATCH then .CATCH_WHEN else .BRACE2)
          else (if pc.ctype = .CT_CATCH then .PAREN1 else .BRACE2)
        (setFrm st (fun f => f.setTop (fun e => { e with etype := pc.ctype, stage := ns })),
         Except.ok (some true))
      else
        let st := setFrm st ParseFrame.pop
        match close_statement (fuel+1) st with
        | (st2, Except.ok true) => (st2, Except.ok (some true))
        | (st2, Except.ok false) => ccs_catch_loop cfg fuel st2
        | (st2, Except.error e) => (st2, Except.error e)
  else (st, Except.ok none)

/-- The virtual-brace insertion block of check_complex_statements
(lines 1042-1092). -/
def ccs_vbrace_insert (cfg : Config) (st : PState) : PState :=
  let pc := tgetN st.toks st.cur
  if pc.ctype ≠ .CT_BRACE_OPEN ∧ ¬ pc.flags.in_preproc ∧
     (st.frm.top.stage = .BRACE2 ∨ st.frm.top.stage = .BRACE_DO) then
    if cfg.lang_cs ∧ pc.ctype = .CT_USING_STMT ∧ ¬ cfg.indent_using_block then
      st
    else
      let parentT := st.frm.top.etype
      let pr := insert_vbrace st (some st.cur) false
      let st := pr.1
      let vbIdx := pr.2
      let st := match vbIdx with
                | some j => setChunk st j (fun c => { c with parent_type := parentT })
                | none => st
      let st := setFrm st (fun f => { f with level := f.level + 1, brace_level := f.brace_level + 1 })
      let st := setFrm st (fun f => f.pushC vbIdx (tgetO st.toks vbIdx) .NONE)
      let st := setFrm st (fun f => f.setTopParent parentT)
      let st := setChunk st st.cur (fun c => { c with level := st.frm.level, brace_level := st.frm.brace_level })
      let st := setFrm st (fun f => { f with stmt_count := 0, expr_count := 0 })
      let st := setChunk st st.cur (fun c =>
        { c with flags := { c.flags with stmt_start := true, expr_start := true } })
      setFrm st (fun f => { f with stmt_count := 1, expr_count := 1 })
  else st

/-- The tail of check_complex_statements: the `constexpr` exception
(lines 1094-1101) and the open-paren verification (lines 1103-1118). -/
def ccs_tail (st : PState) : PState × Except Err Bool :=
  let pc := tgetN st.toks st.cur
  if st.frm.top.stage = .PAREN1 ∧
     (st.frm.top.etype = .CT_IF ∨ st.frm.top.etype = .CT_ELSEIF) ∧
     pc.ctype = .CT_CONSTEXPR then
    (st, Except.ok false)
  else if pc.ctype ≠ .CT_PAREN_OPEN ∧
          (st.frm.top.stage = .PAREN1 ∨ st.frm.top.stage = .WOD_PAREN) then
    let st := addWarn st Warn.expectedParen
    let st := setFrm st ParseFrame.pop
    (st, Except.error (Err.exited EX_SOFTWARE))
  else (st, Except.ok false)

def check_complex_statements (fuel : Nat) (cfg : Config) (st : PState) :
    PState × Except Err Bool :=
  let st :=
    if st.frm.top.stage = .OP_PAREN1 then
      setFrm st (fun f => f.setTopStage
        (if (tgetN st.toks st.cur).ctype ≠ .CT_PAREN_OPEN then .BRACE2 else .PAREN1))
    else st
  match ccs_else_loop fuel st with
  | (st, Except.error e) => (st, Except.error e)
  | (st, Except.ok (some b)) => (st, Except.ok b)
  | (st, Except.ok none) =>
    if st.frm.top.stage = .ELSEIF ∧ (tgetN st.toks st.cur).ctype = .CT_IF ∧
       (¬ cfg.indent_else_if ∨ ¬ (tgetO st.toks (prevNc st.toks st.cur)).IsNewline) then
      let st := setChunk st st.cur (fun c => { c with ctype := .CT_ELSEIF })
      (setFrm st (fun f => f.setTop (fun e => { e with etype := .CT_ELSEIF, stage := .PAREN1 })),
       Except.ok true)
    else
      let st := if st.frm.top.stage = .ELSEIF then setFrm st (fun f => f.setTopStage .BRACE2) else st
      match ccs_catch_loop cfg fuel st with
      | (st, Except.error e) => (st, Except.error e)
      | (st, Except.ok (some b)) => (st, Except.ok b)
      | (st, Except.ok none) =>
        if st.frm.top.stage = .CATCH_WHEN ∧ (tgetN st.toks st.cur).ctype = .CT_PAREN_OPEN then
          let st := setChunk st st.cur (fun c => { c with ctype := .CT_SPAREN_OPEN })
          (setFrm st (fun f => f.setTop (fun e => { e with etype := .CT_SPAREN_OPEN, stage := .PAREN1 })),
           Except.ok false)
        else if st.frm.top.stage = .CATCH_WHEN ∧ (tgetN st.toks st.cur).ctype = .CT_WHEN then
          (setFrm st (fun f => f.setTop (fun e => { e with etype := .CT_WHEN, stage := .OP_PAREN1 })),
           Except.ok true)
        else if st.frm.top.stage = .CATCH_WHEN ∧ (tgetN st.toks st.cur).ctype = .CT_BRACE_OPEN then
          (setFrm st (fun f => f.setTopStage .BRACE2), Except.ok false)
        else if st.frm.top.stage = .WHILE then
          if (tgetN st.toks st.cur).ctype = .CT_WHILE then
            let st := setChunk st st.cur (fun c => { c with ctype := .CT_WHILE_OF_DO })
            (setFrm st (fun f => f.setTop (fun e => { e with etype := .CT_WHILE_OF_DO, stage := .WOD_PAREN })),
             Except.ok true)
          else
            let st := addWarn st Warn.expectedWhile
            let st := setFrm st ParseFrame.pop
            (st, Except.error (Err.exited EX_SOFTWARE))
        else
          ccs_tail (ccs_vbrace_insert cfg st)

/-! ### parse_cleanup (lines 352-892), split into its sequential blocks -/

/-- Statement/expression start marking (lines 362-385). -/
def pcu_mark (st : PState) : PState :=
  let pc := tgetN st.toks st.cur
  let st :=
    if (st.frm.stmt_count = 0 ∨ st.frm.expr_count = 0) ∧
       ¬ pc.IsSemicolon ∧ pc.ctype ≠ .CT_BRACE_CLOSE ∧ pc.ctype ≠ .CT_VBRACE_CLOSE ∧
       pc.str ≠ ")" ∧ pc.str ≠ "]" then
      let s0 : Bool := decide (st.frm.stmt_count = 0)
      setChunk st st.cur (fun c => { c with flags := { c.flags with
        expr_start := true,
        stmt_start := c.flags.stmt_start || s0 } })
    else st
  setFrm st (fun f => { f with stmt_count := f.stmt_count + 1, expr_count := f.expr_count + 1 })

/-- IN_SPAREN / IN_FOR marking and the for-semicolon parent (lines 387-408).
The FOR scan runs from `frm.size() - 2` down to `0`, i.e. over every stack
entry except the top. -/
def pcu_sparen_for (st : PState) : PState :=
  if st.frm.sparen_count > 0 then
    let st := setChunk st st.cur (fun c => { c with flags := { c.flags with in_sparen := true } })
    let st :=
      if st.frm.stack.tail.any (fun e => e.etype = .CT_FOR) then
        setChunk st st.cur (fun c => { c with flags := { c.flags with in_for := true } })
      else st
    if (tgetN st.toks st.cur).ctype = .CT_SEMICOLON ∧ st.frm.size > 2 ∧
       st.frm.prevE.etype = .CT_FOR then
      setChunk st st.cur (fun c => { c with parent_type := .CT_FOR })
    else st
  else st

/-- Virtual-brace close on a semicolon (or `}` in Pawn / D) while the top
is a VBRACE_OPEN (lines 424-441).  The boolean result of `close_statement`
is discarded, as in the source. -/
def pcu_vbrace_semi (cfg : Config) (fuel : Nat) (st : PState) : PState × Except Err Unit :=
  if st.frm.top.etype = .CT_VBRACE_OPEN then
    let pc := tgetN st.toks st.cur
    if pc.IsSemicolon then
      let st := { st with bs := { st.bs with consumed := true } }
      mbind (close_statement fuel st) (fun st _ => (st, Except.ok ()))
    else if cfg.lang_pawn ∧ pc.ctype = .CT_BRACE_CLOSE then
      mbind (close_statement fuel st) (fun st _ => (st, Except.ok ()))
    else if cfg.lang_d ∧ pc.ctype = .CT_BRACE_CLOSE then
      mbind (close_statement fuel st) (fun st _ => (st, Except.ok ()))
    else (st, Except.ok ())
  else (st, Except.ok ())

/-- Handling of close parenthesis / vbrace / brace / angle / macro / square
(lines 444-542): reclassify the paren close, validate against the stack
top, pop and stamp the parent, fire `handle_complex_close`. -/
def pcu_close_block (fuel : Nat) (st : PState) : PState × Except Err Unit :=
  let pc := tgetN st.toks st.cur
  if pc.ctype = .CT_PAREN_CLOSE ∨ pc.ctype = .CT_BRACE_CLOSE ∨ pc.ctype = .CT_VBRACE_CLOSE ∨
     pc.ctype = .CT_ANGLE_CLOSE ∨ pc.ctype = .CT_MACRO_CLOSE ∨ pc.ctype = .CT_SQUARE_CLOSE then
    let st :=
      if pc.ctype = .CT_PAREN_CLOSE ∧
         (st.frm.top.etype = .CT_FPAREN_OPEN ∨ st.frm.top.etype = .CT_SPAREN_OPEN) then
        let newT := succTok st.frm.top.etype
        let st := setChunk st st.cur (fun c => { c with ctype := newT })
        if newT = .CT_SPAREN_CLOSE then
          let st := setFrm st (fun f => { f with sparen_count := f.sparen_count - 1 })
          setChunk st st.cur (fun c => { c with flags := { c.flags with in_sparen := false } })
        else st
      else st
    let pc := tgetN st.toks st.cur
    if pc.ctype ≠ succTok st.frm.top.etype then
      if pc.flags.in_preproc then
        (st, Except.ok ())
      else
        let st := addWarn st Warn.closerInfo
        let st := if st.frm.top.etype ≠ .CT_EOF then addWarn st Warn.closerExpected else st
        if st.frm.top.etype ≠ .CT_EOF ∧ st.frm.top.etype ≠ .CT_PP_DEFINE then
          let st := addWarn st Warn.unexpectedCloser
          (st, Except.error (Err.exited EXIT_FAILURE))
        else (st, Except.ok ())
    else
      let st := { st with bs := { st.bs with consumed := true } }
      let st := setChunk st st.cur (fun c => { c with parent_type := st.frm.top.parent })
      let st := setFrm st (fun f => { f with level := f.level - 1 })
      let st :=
        if pc.ctype = .CT_BRACE_CLOSE ∨ pc.ctype = .CT_VBRACE_CLOSE ∨ pc.ctype = .CT_MACRO_CLOSE then
          setFrm st (fun f => { f with brace_level := f.brace_level - 1 })
        else st
      let st := setChunk st st.cur (fun c => { c with level := st.frm.level, brace_level := st.frm.brace_level })
      let st := setFrm st ParseFrame.pop
      let st :=
        if st.frm.top.stage = .NONE ∧
           (pc.ctype = .CT_VBRACE_CLOSE ∨ pc.ctype = .CT_BRACE_CLOSE ∨ pc.IsSemicolon) ∧
           (tgetO st.toks st.frm.top.pcIdx).ctype = .CT_VBRACE_OPEN then
          let st := setFrm st (fun f => f.pushC none Chunk.null .NONE)
          setFrm st (fun f => f.setTopStage .BRACE2)
        else st
      if st.frm.top.stage ≠ .NONE then
        mbind (handle_complex_close fuel st) (fun st _ => (st, Except.ok ()))
      else (st, Except.ok ())
  else (st, Except.ok ())

/-- The WOD_SEMI stage handling (lines 549-585).  The Pawn virtual
semicolon (`pawn_add_vsemi_after`) is an external hook per spec §6,
modelled as a no-op. -/
def pcu_wod_semi (fuel : Nat) (st : PState) : PState × Except Err Unit :=
  if st.frm.top.stage = .WOD_SEMI then
    if st.bs.consumed then
      (st, Except.ok ())
    else
      let pc := tgetN st.toks st.cur
      if pc.IsSemicolon then
        let st := { st with bs := { st.bs with consumed := true } }
        let st := setChunk st st.cur (fun c => { c with parent_type := .CT_WHILE_OF_DO })
        mbind (handle_complex_close fuel st) (fun st _ => (st, Except.ok ()))
      else
        let st := addWarn st Warn.expectedSemiWOD
        (st, Except.error (Err.exited EX_SOFTWARE))
  else (st, Except.ok ())

/-- Parent computation and paren reclassification for opens
(lines 586-673); returns the state and the `parentType` local. -/
def pcu_parent_open (cfg : Config) (st : PState) : PState × E_Token :=
  let pc := tgetN st.toks st.cur
  let pt0 := pc.parent_type
  if pc.ctype = .CT_PAREN_OPEN ∨ pc.ctype = .CT_FPAREN_OPEN ∨
     pc.ctype = .CT_SPAREN_OPEN ∨ pc.ctype = .CT_BRACE_OPEN then
    match prevNcNnl st.toks st.cur with
    | none => (st, pt0)
    | some p =>
      let prev := tgetN st.toks p
      if pc.ctype ≠ .CT_BRACE_OPEN then
        if prev.ctype = .CT_IF ∨ prev.ctype = .CT_CONSTEXPR ∨ prev.ctype = .CT_ELSEIF ∨
           prev.ctype = .CT_WHILE ∨ prev.ctype = .CT_WHILE_OF_DO ∨ prev.ctype = .CT_DO ∨
           prev.ctype = .CT_FOR ∨ prev.ctype = .CT_SWITCH ∨ prev.ctype = .CT_CATCH ∨
           prev.ctype = .CT_SYNCHRONIZED ∨ prev.ctype = .CT_D_VERSION ∨
           prev.ctype = .CT_D_VERSION_IF ∨ prev.ctype = .CT_D_SCOPE ∨
           prev.ctype = .CT_D_SCOPE_IF then
          let st := setChunk st st.cur (fun c => { c with ctype := .CT_SPAREN_OPEN })
          let st := setFrm st (fun f => { f with sparen_count := f.sparen_count + 1 })
          (st, st.frm.top.etype)
        else if prev.ctype = .CT_FUNCTION then
          (setChunk st st.cur (fun c => { c with ctype := .CT_FPAREN_OPEN }), .CT_FUNCTION)
        else if prev.ctype = .CT_ENUM ∧ cfg.lang_oc then
          (setChunk st st.cur (fun c => { c with ctype := .CT_FPAREN_OPEN }), .CT_ENUM)
        else if prev.ctype = .CT_DECLSPEC then
          (st, .CT_DECLSPEC)
        else (st, pt0)
      else
        if st.frm.top.stage ≠ .NONE then (st, st.frm.top.etype)
        else if prev.ctype = .CT_ASSIGN ∧ prev.str.front = '=' then (st, .CT_ASSIGN)
        else if prev.ctype = .CT_RETURN ∧ cfg.lang_cpp then (st, .CT_RETURN)
        else if prev.ctype = .CT_FPAREN_CLOSE ∧ cfg.lang_oc ∧
                prev.parent_type = .CT_ENUM then (st, .CT_ENUM)
        else if prev.ctype = .CT_FPAREN_CLOSE then (st, .CT_FUNCTION)
        else (st, pt0)
  else (st, pt0)

/-- Level adjustment and stack entry creation for opens (lines 675-731),
including the namespace single-indent exception. -/
def pcu_open_push (cfg : Config) (st : PState) (parentType : E_Token) : PState :=
  let pc := tgetN st.toks st.cur
  if pc.ctype = .CT_BRACE_OPEN ∨ pc.ctype = .CT_PAREN_OPEN ∨ pc.ctype = .CT_FPAREN_OPEN ∨
     pc.ctype = .CT_SPAREN_OPEN ∨ pc.ctype = .CT_ANGLE_OPEN ∨ pc.ctype = .CT_MACRO_OPEN ∨
     pc.ctype = .CT_SQUARE_OPEN then
    let st := setFrm st (fun f => { f with level := f.level + 1 })
    let st :=
      if pc.ctype = .CT_BRACE_OPEN ∨ pc.ctype = .CT_MACRO_OPEN then
        let single :=
          pc.parent_type = .CT_NAMESPACE ∧
          (tgetO st.toks st.frm.top.pcIdx).parent_type = .CT_NAMESPACE ∧
          cfg.indent_namespace ∧ cfg.indent_namespace_single_indent
        if ¬ single then setFrm st (fun f => { f with brace_level := f.brace_level + 1 })
        else st
      else st
    let st := setFrm st (fun f => f.pushC (some st.cur) (tgetN st.toks st.cur) .NONE)
    let st := setFrm st (fun f => f.setTopParent parentType)
    setChunk st st.cur (fun c => { c with parent_type := parentType })
  else st

/-- The switch-brace / case / default / break parent linkage
(lines 734-789). -/
def pcu_switch_case (st : PState) : PState :=
  let pc := tgetN st.toks st.cur
  let st :=
    if pc.ctype = .CT_BRACE_OPEN ∧ pc.parent_type = .CT_SWITCH then
      let savedI := (st.frm.stack.getD 1 eofEntry).pcIdx
      if validPos st.toks savedI then
        let pref := some ((tgetO st.toks savedI).ctype, (tgetO st.toks savedI).orig_line)
        setChunk st st.cur (fun c => { c with parent_ref := pref })
      else st
    else st
  let pc := tgetN st.toks st.cur
  let st :=
    if pc.ctype = .CT_CASE ∨ pc.ctype = .CT_DEFAULT then
      let prev := tgetO st.toks (prevNcNnl st.toks st.cur)
      if pc.ctype = .CT_CASE ∨ (pc.ctype = .CT_DEFAULT ∧ prev.ctype ≠ .CT_ASSIGN) then
        let st := setChunk st st.cur (fun c => { c with parent_type := .CT_SWITCH })
        let savedI := (st.frm.stack.getD 1 eofEntry).pcIdx
        if validPos st.toks savedI then
          let pref := some ((tgetO st.toks savedI).ctype, (tgetO st.toks savedI).orig_line)
          setChunk st st.cur (fun c => { c with parent_ref := pref })
        else st
      else st
    else st
  let pc := tgetN st.toks st.cur
  if pc.ctype = .CT_BREAK then
    let savedI := (st.frm.stack.getD 1 eofEntry).pcIdx
    if validPos st.toks savedI then
      let pref := some ((tgetO st.toks savedI).ctype, (tgetO st.toks savedI).orig_line)
      setChunk st st.cur (fun c => { c with parent_ref := pref })
    else st
  else st

/-- Stack entry creation for complex statements (lines 790-825). -/
def pcu_patcls (st : PState) : PState :=
  let pc := tgetN st.toks st.cur
  match get_token_pattern_class pc.ctype with
  | .braced =>
    setFrm st (fun f => f.pushC (some st.cur) pc
      (if pc.ctype = .CT_DO then .BRACE_DO else .BRACE2))
  | .pbraced =>
    if pc.ctype = .CT_WHILE ∧ maybe_while_of_do st.toks st.cur then
      let st := setChunk st st.cur (fun c => { c with ctype := .CT_WHILE_OF_DO })
      setFrm st (fun f => f.pushC (some st.cur) (tgetN st.toks st.cur) .WOD_PAREN)
    else
      setFrm st (fun f => f.pushC (some st.cur) pc .PAREN1)
  | .opbraced => setFrm st (fun f => f.pushC (some st.cur) pc .OP_PAREN1)
  | .elseCls => setFrm st (fun f => f.pushC (some st.cur) pc .ELSEIF)
  | .pcNone => st

/-- Statement/expression reset triggers (lines 833-854). -/
def pcu_stmt_reset (st : PState) : PState :=
  let pc := tgetN st.toks st.cur
  if pc.ctype = .CT_SQUARE_OPEN ∨
     (pc.ctype = .CT_BRACE_OPEN ∧ pc.parent_type ≠ .CT_ASSIGN) ∨
     pc.ctype = .CT_BRACE_CLOSE ∨ pc.ctype = .CT_VBRACE_CLOSE ∨
     (pc.ctype = .CT_SPAREN_OPEN ∧ pc.parent_type = .CT_FOR) ∨
     pc.ctype = .CT_COLON ∨ pc.ctype = .CT_OC_END ∨
     (pc.IsSemicolon ∧ st.frm.top.etype ≠ .CT_PAREN_OPEN ∧
        st.frm.top.etype ≠ .CT_FPAREN_OPEN ∧ st.frm.top.etype ≠ .CT_SPAREN_OPEN) ∨
     pc.ctype = .CT_MACRO_KW then
    setFrm st (fun f => { f with stmt_count := 0, expr_count := 0 })
  else st

/-- Expression reset triggers (lines 856-891). -/
def pcu_expr_reset (st : PState) : PState :=
  let pc := tgetN st.toks st.cur
  let tmp := tgetO st.toks (nextNcNnl st.toks st.cur)
  if pc.ctype = .CT_ARITH ∨ pc.ctype = .CT_SHIFT ∨ pc.ctype = .CT_ASSIGN ∨
     pc.ctype = .CT_CASE ∨ pc.ctype = .CT_COMPARE ∨
     (pc.ctype = .CT_STAR ∧ tmp.ctype ≠ .CT_STAR) ∨
     pc.ctype = .CT_BOOL ∨ pc.ctype = .CT_MINUS ∨ pc.ctype = .CT_PLUS ∨
     pc.ctype = .CT_CARET ∨ pc.ctype = .CT_ANGLE_OPEN ∨ pc.ctype = .CT_ANGLE_CLOSE ∨
     pc.ctype = .CT_RETURN ∨ pc.ctype = .CT_THROW ∨ pc.ctype = .CT_GOTO ∨
     pc.ctype = .CT_CONTINUE ∨ pc.ctype = .CT_PAREN_OPEN ∨ pc.ctype = .CT_FPAREN_OPEN ∨
     pc.ctype = .CT_SPAREN_OPEN ∨ pc.ctype = .CT_BRACE_OPEN ∨ pc.IsSemicolon ∨
     pc.ctype = .CT_COMMA ∨ pc.ctype = .CT_NOT ∨ pc.ctype = .CT_INV ∨
     pc.ctype = .CT_COLON ∨ pc.ctype = .CT_QUESTION then
    setFrm st (fun f => { f with expr_count := 0 })
  else st

/-- The open-side tail of parse_cleanup (everything after the WOD_SEMI
block). -/
def pcu_open_tail (cfg : Config) (st : PState) : PState :=
  let pr := pcu_parent_open cfg st
  let st := pcu_open_push cfg pr.1 pr.2
  let st := pcu_switch_case st
  let st := pcu_patcls st
  let st := pcu_stmt_reset st
  pcu_expr_reset st

/-- `parse_cleanup(braceState, frm, pc)` with `pc` the chunk at `st.cur`. -/
def parse_cleanup (fuel : Nat) (cfg : Config) (st : PState) : PState × Except Err Unit :=
  let st := pcu_mark st
  let st := pcu_sparen_for st
  let ccsStep : PState × Except Err Bool :=
    if st.frm.top.stage ≠ .NONE ∧ (tgetN st.toks st.cur).ctype ≠ .CT_AUTORELEASEPOOL then
      check_complex_statements fuel cfg st
    else (st, Except.ok false)
  match ccsStep with
  | (st, Except.error e) => (st, Except.error e)
  | (st, Except.ok true) => (st, Except.ok ())
  | (st, Except.ok false) =>
    mbind (pcu_vbrace_semi cfg fuel st) (fun st _ =>
    mbind (pcu_close_block fuel st) (fun st _ =>
    mbind (pcu_wod_semi fuel st) (fun st _ =>
      (pcu_open_tail cfg st, Except.ok ()))))

/-! ### Frame-list protocol and preproc_start (lines 117-150) -/

/-- Modelled from the spec: `fl_push` (frame_list.cpp is not under src/) —
push a copy of the current frame onto the frame list. -/
def fl_push (st : PState) : PState :=
  { st with bs := { st.bs with frames := st.frm :: st.bs.frames } }

/-- Modelled from the spec: `fl_pop` — restore the top saved frame into the
current frame and drop it from the list. -/
def fl_pop (st : PState) : PState :=
  match st.bs.frames with
  | [] => st
  | f :: rest => { st with frm := f, bs := { st.bs with frames := rest } }

/-- Modelled from the spec: `fl_check` for the non-`#define` directives
(spec §4.C): `#if` pushes a copy of the current frame; `#else`/`#elif`
pushes the current frame under the saved top and restores that pre-`#if`
state; `#endif` pops the top saved frame; other directives change no
frame. -/
def fl_check (st : PState) : PState × Nat :=
  match st.bs.in_preproc with
  | .CT_PP_IF =>
    let bs2 := { st.bs with frames := st.frm :: st.bs.frames, pp_level := st.bs.pp_level + 1 }
    ({ st with bs := bs2 }, st.bs.pp_level)
  | .CT_PP_ELSE =>
    let st2 :=
      match st.bs.frames with
      | [] => st
      | f :: rest => { st with frm := f, bs := { st.bs with frames := f :: st.frm :: rest } }
    (st2, st.bs.pp_level)
  | .CT_PP_ENDIF =>
    let st2 :=
      match st.bs.frames with
      | [] => { st with bs := { st.bs with pp_level := st.bs.pp_level - 1 } }
      | _ :: rest =>
        let bs2 := { st.bs with frames := rest, pp_level := st.bs.pp_level - 1 }
        { st with bs := bs2 }
    (st2, st.bs.pp_level - 1)
  | _ => (st, st.bs.pp_level)

/-- `preproc_start(braceState, frm, pc)` (lines 117-150): learn the
directive kind from the next significant chunk; on `#define` push the
frame and start a fresh one with `level = brace_level = 1` and a
`CT_PP_DEFINE` sentinel entry. -/
def preproc_start (st : PState) : PState × Nat :=
  let pp_level := st.bs.pp_level
  match nextNcNnl st.toks st.cur with
  | none => (st, pp_level)
  | some j =>
    let st := { st with bs := { st.bs with in_preproc := (tgetN st.toks j).ctype } }
    if st.bs.in_preproc ≠ .CT_PP_DEFINE then
      fl_check st
    else
      let st := fl_push st
      let frm2 : ParseFrame :=
        { level := 1, brace_level := 1,
          stack := [{ etype := .CT_PP_DEFINE }, eofEntry] }
      ({ st with frm := frm2 }, pp_level)

/-! ### mark_namespace (lines 1227-1284) -/

/-- Modelled from the spec: `GetClosingParen` for a brace opener — the
matching close at the same depth, by linear scan (the chunk helper is not
under src/; spec §4.A allows the linear scan). -/
def getClosingBrace (toks : List Chunk) : Nat → Nat → Nat → Option Nat
  | _, 0, _ => none
  | j, fl+1, depth =>
    if j < toks.length then
      match (tgetN toks j).ctype with
      | .CT_BRACE_OPEN => getClosingBrace toks (j+1) fl (depth+1)
      | .CT_BRACE_CLOSE =>
        if depth = 0 then some j else getClosingBrace toks (j+1) fl (depth-1)
      | _ => getClosingBrace toks (j+1) fl depth
    else none

/-- The walk of `mark_namespace`: stamp `CT_NAMESPACE` parents forward
until a brace open or semicolon.  `flag_parens` is an opaque hook per spec
§1, modelled as a no-op. -/
def mark_namespace_walk (cfg : Config) : Nat → PState → Option Nat → Bool → PState
  | 0, st, _, _ => st
  | _, st, none, _ => st
  | fl+1, st, some j, is_using =>
    if j < st.toks.length then
      let st := setChunk st j (fun c => { c with parent_type := .CT_NAMESPACE })
      let pc := tgetN st.toks j
      if pc.ctype ≠ .CT_BRACE_OPEN then
        if pc.ctype = .CT_SEMICOLON then
          if is_using then setChunk st j (fun c => { c with parent_type := .CT_USING })
          else st
        else
          mark_namespace_walk cfg fl st (nextNcNnl st.toks j) is_using
      else
        if cfg.indent_namespace_limit > 0 then
          match getClosingBrace st.toks (j+1) st.toks.length 0 with
          | none => st
          | some bc =>
            let nLines := (tgetN st.toks bc).orig_line - pc.orig_line - 1
            if nLines > cfg.indent_namespace_limit then
              let st := setChunk st j (fun c => { c with flags := { c.flags with long_block := true } })
              setChunk st bc (fun c => { c with flags := { c.flags with long_block := true } })
            else st
        else st
    else st

def mark_namespace (cfg : Config) (st : PState) : PState :=
  let i := st.cur
  let prev := tgetO st.toks (prevNcNnl st.toks i)
  let pr : PState × Bool :=
    if prev.ctype = .CT_USING then
      (setChunk st i (fun c => { c with parent_type := .CT_USING }), true)
    else (st, false)
  mark_namespace_walk cfg pr.1.toks.length pr.1 (nextNcNnl pr.1.toks i) pr.2

/-! ### The driver loop (brace_cleanup, lines 182-266) -/

/-- Leaving a `#define` body (lines 194-212): restore the saved frame and
warn on brace imbalance when `pp_warn_unbalanced_if` is set. -/
def bc_leave_define (cfg : Config) (st : PState) : PState :=
  if st.bs.in_preproc ≠ .CT_NONE ∧ ¬ (tgetN st.toks st.cur).flags.in_preproc then
    let st :=
      if st.bs.in_preproc = .CT_PP_DEFINE then
        let st :=
          if cfg.pp_warn_unbalanced_if ∧ st.frm.brace_level ≠ 1 then
            addWarn st Warn.unbalancedDefine
          else st
        fl_pop st
      else st
    { st with bs := { st.bs with in_preproc := .CT_NONE } }
  else st

/-- The per-chunk prologue of the main loop (leave-define, preprocessor
entry, namespace marking, level/pp_level stamping). -/
def bc_body (cfg : Config) (st : PState) : PState :=
  let st := bc_leave_define cfg st
  let pr : PState × Nat :=
    if (tgetN st.toks st.cur).ctype = .CT_PREPROC then preproc_start st
    else (st, st.bs.pp_level)
  let st := pr.1
  let pp_level := pr.2
  let st := if (tgetN st.toks st.cur).ctype = .CT_NAMESPACE then mark_namespace cfg st else st
  setChunk st st.cur (fun c =>
    { c with level := st.frm.level, brace_level := st.frm.brace_level, pp_level := pp_level })

/-- One iteration of the main loop: `Sum.inl` is a final result (end of
the list, or an abnormal parse_cleanup outcome), `Sum.inr` the state for
the next iteration. -/
def bc_step (cfg : Config) (fuel : Nat) (st : PState) :
    (PState × Except Err Unit) ⊕ PState :=
  if st.cur < st.toks.length then
    let st := bc_body cfg st
    let pc := tgetN st.toks st.cur
    if ¬ pc.IsCommentOrNewline ∧ pc.ctype ≠ .CT_ATTRIBUTE ∧ pc.ctype ≠ .CT_IGNORED ∧
       (st.bs.in_preproc = .CT_PP_DEFINE ∨ st.bs.in_preproc = .CT_NONE) then
      let st := { st with bs := { st.bs with consumed := false } }
      match parse_cleanup fuel cfg st with
      | (st, Except.ok _) => Sum.inr { st with cur := st.cur + 1 }
      | (st, Except.error e) => Sum.inl (st, Except.error e)
    else Sum.inr { st with cur := st.cur + 1 }
  else Sum.inl (st, Except.ok ())

/-- One sweep of the main loop.  The Pawn virtual-semicolon hook
(`pawn_check_vsemicolon`) is an external pass per spec §6, modelled as a
no-op returning the same chunk. -/
def brace_cleanup_loop (cfg : Config) : Nat → PState → PState × Except Err Unit
  | 0, st => (st, Except.error Err.fuel)
  | fuel+1, st =>
    match bc_step cfg fuel st with
    | Sum.inl r => r
    | Sum.inr st2 => brace_cleanup_loop cfg fuel st2

/-- `brace_cleanup()`: run the sweep from the head of the token list. -/
def brace_cleanup (cfg : Config) (fuel : Nat) (toks : List Chunk) :
    PState × Except Err Unit :=
  brace_cleanup_loop cfg fuel { toks := toks }

/-! ### Closers, sentinel invariant, result projections -/

/-- The closer kinds handled by parse_cleanup (line 444). -/
def isCloser (t : E_Token) : Bool :=
  t = .CT_PAREN_CLOSE ∨ t = .CT_BRACE_CLOSE ∨ t = .CT_VBRACE_CLOSE ∨
  t = .CT_ANGLE_CLOSE ∨ t = .CT_MACRO_CLOSE ∨ t = .CT_SQUARE_CLOSE

/-- The frame invariant behind the termination of `close_statement`: the
stack is nonempty and its bottom entry is a sentinel — stage `NONE` and
not a virtual-brace opener.  Every frame the pass builds starts from
`[eofEntry]` or the `#define` pair, and pushes/pops never touch the
bottom. -/
def sentinelOk (f : ParseFrame) : Prop :=
  f.stack ≠ [] ∧ (f.stack.getLastD eofEntry).stage = BraceStage.NONE ∧
    (f.stack.getLastD eofEntry).etype ≠ E_Token.CT_VBRACE_OPEN

instance (f : ParseFrame) : Decidable (sentinelOk f) := by
  unfold sentinelOk; infer_instance

/-! ### Concrete example states used by the claim theorems -/

/-- Default configuration (language C, all options off/default). -/
def cfgC : Config := {}

/-- C# configuration with `indent_using_block` switched off. -/
def cfgCS : Config := { lang_cs := true, indent_using_block := false }

/-- Configuration with `pp_warn_unbalanced_if` on. -/
def cfgW : Config := { pp_warn_unbalanced_if := true }

def tok (t : E_Token) (s : String) : Chunk := { ctype := t, str := s }

def ppTok (t : E_Token) (s : String) : Chunk :=
  { ctype := t, str := s, flags := { in_preproc := true } }

/-- Token stream of `do \x7b x; \x7d while (y);`. -/
def doWhileToks : List Chunk :=
  [ tok .CT_DO "do", tok .CT_BRACE_OPEN "\x7b", tok .CT_WORD "x",
    tok .CT_SEMICOLON ";", tok .CT_BRACE_CLOSE "\x7d", tok .CT_WHILE "while",
    tok .CT_PAREN_OPEN "(", tok .CT_WORD "y", tok .CT_PAREN_CLOSE ")",
    tok .CT_SEMICOLON ";" ]

/-- A mismatched closer over a real (non-sentinel) opener: top of stack is
a `(`, current chunk is a `\x7d` not in a preprocessor. -/
def stMismatch : PState :=
  { toks := [tok .CT_PAREN_OPEN "(", tok .CT_BRACE_CLOSE "\x7d"], cur := 1,
    frm := { stack := [{ etype := .CT_PAREN_OPEN, pcIdx := some 0 }, eofEntry],
             level := 1 } }

/-- A mismatched closer over the EOF sentinel: a stray `\x7d` at file
scope. -/
def stMismatchEof : PState :=
  { toks := [tok .CT_BRACE_CLOSE "\x7d"], cur := 0 }

/-- A mismatched closer inside a preprocessor directive. -/
def stMismatchPp : PState :=
  { toks := [tok .CT_PAREN_OPEN "(", ppTok .CT_BRACE_CLOSE "\x7d"], cur := 1,
    frm := { stack := [{ etype := .CT_PAREN_OPEN, pcIdx := some 0 }, eofEntry],
             level := 1 } }

/-- `if constexpr`: the IF entry is in stage PAREN1 and the current chunk
is `constexpr`, not `(`. -/
def stConstexpr : PState :=
  { toks := [tok .CT_IF "if", tok .CT_CONSTEXPR "constexpr"], cur := 1,
    frm := { stack := [{ etype := .CT_IF, stage := .PAREN1, pcIdx := some 0 },
                       eofEntry] } }

/-- Stage PAREN1 on an IF entry with a semicolon instead of `(`. -/
def stParen1Semi : PState :=
  { toks := [tok .CT_IF "if", tok .CT_SEMICOLON ";"], cur := 1,
    frm := { stack := [{ etype := .CT_IF, stage := .PAREN1, pcIdx := some 0 },
                       eofEntry] } }

/-- A C# `using` statement meeting a BRACE_DO/BRACE2 stage with
`indent_using_block` off. -/
def stUsingCS : PState :=
  { toks := [tok .CT_DO "do", tok .CT_USING_STMT "using"], cur := 1,
    frm := { stack := [{ etype := .CT_DO, stage := .BRACE_DO, pcIdx := some 0 },
                       eofEntry] } }

/-- An IF entry in stage BRACE2 whose body is an unbraced statement. -/
def stIfBody : PState :=
  { toks := [tok .CT_IF "if", tok .CT_WORD "y"], cur := 1,
    frm := { stack := [{ etype := .CT_IF, stage := .BRACE2, pcIdx := some 0 },
                       eofEntry] } }

/-- The `(` of a top-level `for`: at this moment the FOR entry is on the
stack (stage PAREN1) but `sparen_count` is still 0. -/
def stForParen : PState :=
  { toks := [tok .CT_FOR "for", tok .CT_PAREN_OPEN "("], cur := 1,
    frm := { stack := [{ etype := .CT_FOR, stage := .PAREN1, pcIdx := some 0 },
                       eofEntry] } }

/-- A chunk inside `for (...)`: `sparen_count` is 1 and the FOR entry sits
below the SPAREN_OPEN top. -/
def stInFor : PState :=
  { toks := [tok .CT_FOR "for", tok .CT_SPAREN_OPEN "(", tok .CT_WORD "i"],
    cur := 2,
    frm := { stack := [{ etype := .CT_SPAREN_OPEN, parent := .CT_FOR, pcIdx := some 1 },
                       { etype := .CT_FOR, stage := .PAREN1, pcIdx := some 0 },
                       eofEntry],
             level := 1, sparen_count := 1 } }

/-- A `#` chunk introducing `#define M`. -/
def stDefine : PState :=
  { toks := [ppTok .CT_PREPROC "#", ppTok .CT_PP_DEFINE "define",
             ppTok .CT_WORD "M"], cur := 0 }

/-- The first chunk after a `#define` body whose brace_level drifted to 2. -/
def stLeaveDefine : PState :=
  { toks := [tok .CT_WORD "b"], cur := 0,
    frm := { stack := [{ etype := .CT_BRACE_OPEN, pcIdx := none },
                       { etype := .CT_PP_DEFINE }, eofEntry],
             level := 2, brace_level := 2 },
    bs := { frames := [{ stack := [eofEntry] }], in_preproc := .CT_PP_DEFINE } }

/-- A VBRACE_OPEN top above the sentinel, with an unconsumed chunk: the
state that makes `close_statement` pop and recurse once. -/
def stCloseVb : PState :=
  { toks := [tok .CT_WORD "y", tok .CT_SEMICOLON ";"], cur := 1,
    frm := { stack := [{ etype := .CT_VBRACE_OPEN, pcIdx := none }, eofEntry],
             level := 1, brace_level := 1 } }

/-- A `while` whose previous significant chunk is an ordinary (non-preproc)
`\x7d` closing a `do`. -/
def stWhileAfterDo : PState :=
  { toks := [Chunk.mk .CT_BRACE_CLOSE .CT_DO 0 0 0 {} "\x7d" 1 1 1 none,
             tok .CT_WHILE "while"], cur := 1 }

/-- A `while` whose previous significant chunk is a `\x7d` with parent DO
inside a preprocessor — the up-front WHILE_OF_DO recognition case. -/
def stWhileAfterDoPp : PState :=
  { toks := [{ ctype := .CT_BRACE_CLOSE, parent_type := .CT_DO,
               flags := { in_preproc := true }, str := "\x7d" },
             tok .CT_WHILE "while"], cur := 1 }

/-- A WHILE chunk while the enclosing DO entry is in stage WHILE (after
its closing brace was consumed). -/
def stWhileStage : PState :=
  { toks := [tok .CT_BRACE_CLOSE "\x7d", tok .CT_WHILE "while"], cur := 1,
    frm := { stack := [{ etype := .CT_DO, stage := .WHILE, pcIdx := none },
                       eofEntry] } }

/-- The VBRACE_OPEN chunk `insert_vbrace` builds when the anchor is the
plain (non-comment, non-preproc) chunk at index `p` directly before the
current chunk. -/
def vbChunkAt (st : PState) (p : Nat) : Chunk :=
  { ctype := .CT_VBRACE_OPEN,
    parent_type := st.frm.top.etype,
    level := st.frm.level,
    brace_level := st.frm.brace_level,
    pp_level := (tgetN st.toks p).pp_level,
    flags := { copyFlags (tgetN st.toks st.cur).flags with in_preproc := false },
    str := "",
    orig_line := (tgetN st.toks p).orig_line,
    orig_col := (tgetN st.toks p).orig_col,
    column := (tgetN st.toks p).column + (tgetN st.toks p).str.length + 1,
    parent_ref := none }

/-- Exit-code projection of a pass result (`none`: no process exit). -/
def exitCodeOf {A : Type} : Except Err A → Option Nat
  | Except.error (Err.exited n) => some n
  | _ => none

/-! ### Intermediate states of the do-while run (C7): `c7Sk` is the state
entering driver iteration k. -/

def c7S0 : PState := { toks := [{ ctype := BraceCleanup.E_Token.CT_DO, parent_type := BraceCleanup.E_Token.CT_NONE, level := 0, brace_level := 0, pp_level := 0, flags := { stmt_start := false, expr_start := false, in_preproc := false, in_sparen := false, in_for := false, in_namespace := false, long_block := false }, str := "do", orig_line := 0, orig_col := 0, column := 0, parent_ref := none }, { ctype := BraceCleanup.E_Token.CT_BRACE_OPEN, parent_type := BraceCleanup.E_Token.CT_NONE, level := 0, brace_level := 0, pp_level := 0, flags := { stmt_start := false, expr_start := false, in_preproc := false, in_sparen := false, in_for := false, in_namespace := false, long_block := false }, str := "\x7b", orig_line := 0, orig_col := 0, column := 0, parent_ref := none }, { ctype := BraceCleanup.E_Token.CT_WORD, parent_type := BraceCleanup.E_Token.CT_NONE, level := 0, brace_level := 0, pp_level := 0, flags := { stmt_start := false, expr_start := false, in_preproc := false, in_sparen := false, in_for := false, in_namespace := false, long_block := false }, str := "x", orig_line := 0, orig_col := 0, column := 0, parent_ref := none }, { ctype := BraceCleanup.E_Token.CT_SEMICOLON, parent_type := BraceCleanup.E_Token.CT_NONE, level := 0, brace_level := 0, pp_level := 0, flags := { stmt_start := false, expr_start := false, in_preproc := false, in_sparen := false, in_for := false, in_namespace := false, long_block := false }, str := ";", orig_line := 0, orig_col := 0, column := 0, parent_ref := none }, { ctype := BraceCleanup.E_Token.CT_BRACE_CLOSE, parent_type := BraceCleanup.E_Token.CT_NONE, level := 0, brace_level := 0, pp_level := 0, flags := { stmt_start := false, expr_start := false, in_preproc := false, in_sparen := false, in_for := false, in_namespace := false, long_block := false }, str := "\x7d", orig_line := 0, orig_col := 0, column := 0, parent_ref := none }, { ctype := BraceCleanup.E_Token.CT_WHILE, parent_type := BraceCleanup.E_Token.CT_NONE, level := 0, brace_level := 0, pp_level := 0, flags := { stmt_start := false, expr_start := false, in_preproc := false, in_sparen := false, in_for := false, in_namespace := false, long_block := false }, str := "while", orig_line := 0, orig_col := 0, column := 0, parent_ref := none }, { ctype := BraceCleanup.E_Token.CT_PAREN_OPEN, parent_type := BraceCleanup.E_Token.CT_NONE, level := 0, brace_level := 0, pp_level := 0, flags := { stmt_start := false, expr_start := false, in_preproc := false, in_sparen := false, in_for := false, in_namespace := false, long_block := false }, str := "(", orig_line := 0, orig_col := 0, column := 0, parent_ref := none }, { ctype := BraceCleanup.E_Token.CT_WORD, parent_type := BraceCleanup.E_Token.CT_NONE, level := 0, brace_level := 0, pp_level := 0, flags := { stmt_start := false, expr_start := false, in_preproc := false, in_sparen := false, in_for := false, in_namespace := false, long_block := false }, str := "y", orig_line := 0, orig_col := 0, column := 0, parent_ref := none }, { ctype := BraceCleanup.E_Token.CT_PAREN_CLOSE, parent_type := BraceCleanup.E_Token.CT_NONE, level := 0, brace_level := 0, pp_level := 0, flags := { stmt_start := false, expr_start := false, in_preproc := false, in_sparen := false, in_for := false, in_namespace := false, long_block := false }, str := ")", orig_line := 0, orig_col := 0, column := 0, parent_ref := none }, { ctype := BraceCleanup.E_Token.CT_SEMICOLON, parent_type := BraceCleanup.E_Token.CT_NONE, level := 0, brace_level := 0, pp_level := 0, flags := { stmt_start := false, expr_start := false, in_preproc := false, in_sparen := false, in_for := false, in_namespace := false, long_block := false }, str := ";", orig_line := 0, orig_col := 0, column := 0, parent_ref := none }], cur := 0, frm := { stack := [{ etype := BraceCleanup.E_Token.CT_EOF, parent := BraceCleanup.E_Token.CT_NONE, stage := BraceCleanup.BraceStage.NONE, pcIdx := none }], level := 0, brace_level := 0, pp_level := 0, sparen_count := 0, stmt_count := 0, expr_count := 0 }, bs := { frames := [], in_preproc := BraceCleanup.E_Token.CT_NONE, pp_level := 0, consumed := false }, warnings := [] }

def c7S1 : PState := { toks := [{ ctype := BraceCleanup.E_Token.CT_DO, parent_type := BraceCleanup.E_Token.CT_NONE, level := 0, brace_level := 0, pp_level := 0, flags := { stmt_start := true, expr_start := true, in_preproc := false, in_sparen := false, in_for := false, in_namespace := false, long_block := false }, str := "do", orig_line := 0, orig_col := 0, column := 0, parent_ref := none }, { ctype := BraceCleanup.E_Token.CT_BRACE_OPEN, parent_type := BraceCleanup.E_Token.CT_NONE, level := 0, brace_level := 0, pp_level := 0, flags := { stmt_start := false, expr_start := false, in_preproc := false, in_sparen := false, in_for := false, in_namespace := false, long_block := false }, str := "\x7b", orig_line := 0, orig_col := 0, column := 0, parent_ref := none }, { ctype := BraceCleanup.E_Token.CT_WORD, parent_type := BraceCleanup.E_Token.CT_NONE, level := 0, brace_level := 0, pp_level := 0, flags := { stmt_start := false, expr_start := false, in_preproc := false, in_sparen := false, in_for := false, in_namespace := false, long_block := false }, str := "x", orig_line := 0, orig_col := 0, column := 0, parent_ref := none }, { ctype := BraceCleanup.E_Token.CT_SEMICOLON, parent_type := BraceCleanup.E_Token.CT_NONE, level := 0, brace_level := 0, pp_level := 0, flags := { stmt_start := false, expr_start := false, in_preproc := false, in_sparen := false, in_for := false, in_namespace := false, long_block := false }, str := ";", orig_line := 0, orig_col := 0, column := 0, parent_ref := none }, { ctype := BraceCleanup.E_Token.CT_BRACE_CLOSE, parent_type := BraceCleanup.E_Token.CT_NONE, level := 0, brace_level := 0, pp_level := 0, flags := { stmt_start := false, expr_start := false, in_preproc := false, in_sparen := false, in_for := false, in_namespace := false, long_block := false }, str := "\x7d", orig_line := 0, orig_col := 0, column := 0, parent_ref := none }, { ctype := BraceCleanup.E_Token.CT_WHILE, parent_type := BraceCleanup.E_Token.CT_NONE, level := 0, brace_level := 0, pp_level := 0, flags := { stmt_start := false, expr_start := false, in_preproc := false, in_sparen := false, in_for := false, in_namespace := false, long_block := false }, str := "while", orig_line := 0, orig_col := 0, column := 0, parent_ref := none }, { ctype := BraceCleanup.E_Token.CT_PAREN_OPEN, parent_type := BraceCleanup.E_Token.CT_NONE, level := 0, brace_level := 0, pp_level := 0, flags := { stmt_start := false, expr_start := false, in_preproc := false, in_sparen := false, in_for := false, in_namespace := false, long_block := false }, str := "(", orig_line := 0, orig_col := 0, column := 0, parent_ref := none }, { ctype := BraceCleanup.E_Token.CT_WORD, parent_type := BraceCleanup.E_Token.CT_NONE, level := 0, brace_level := 0, pp_level := 0, flags := { stmt_start := false, expr_start := false, in_preproc := false, in_sparen := false, in_for := false, in_namespace := false, long_block := false }, str := "y", orig_line := 0, orig_col := 0, column := 0, parent_ref := none }, { ctype := BraceCleanup.E_Token.CT_PAREN_CLOSE, parent_type := BraceCleanup.E_Token.CT_NONE, level := 0, brace_level := 0, pp_level := 0, flags := { stmt_start := false, expr_start := false, in_preproc := false, in_sparen := false, in_for := false, in_namespace := false, long_block := false }, str := ")", orig_line := 0, orig_col := 0, column := 0, parent_ref := none }, { ctype := BraceCleanup.E_Token.CT_SEMICOLON, parent_type := BraceCleanup.E_Token.CT_NONE, level := 0, brace_level := 0, pp_level := 0, flags := { stmt_start := false, expr_start := false, in_preproc := false, in_sparen := false, in_for := false, in_namespace := false, long_block := false }, str := ";", orig_line := 0, orig_col := 0, column := 0, parent_ref := none }], cur := 1, frm := { stack := [{ etype := BraceCleanup.E_Token.CT_DO, parent := BraceCleanup.E_Token.CT_NONE, stage := BraceCleanup.BraceStage.BRACE_DO, pcIdx := some 0 }, { etype := BraceCleanup.E_Token.CT_EOF, parent := BraceCleanup.E_Token.CT_NONE, stage := BraceCleanup.BraceStage.NONE, pcIdx := none }], level := 0, brace_level := 0, pp_level := 0, sparen_count := 0, stmt_count := 1, expr_count := 1 }, bs := { frames := [], in_preproc := BraceCleanup.E_Token.CT_NONE, pp_level := 0, consumed := false }, warnings := [] }

def c7S2 : PState := { toks := [{ ctype := BraceCleanup.E_Token.CT_DO, parent_type := BraceCleanup.E_Token.CT_NONE, level := 0, brace_level := 0, pp_level := 0, flags := { stmt_start := true, expr_start := true, in_preproc := false, in_sparen := false, in_for := false, in_namespace := false, long_block := false }, str := "do", orig_line := 0, orig_col := 0, column := 0, parent_ref := none }, { ctype := BraceCleanup.E_Token.CT_BRACE_OPEN, parent_type := BraceCleanup.E_Token.CT_DO, level := 0, brace_level := 0, pp_level := 0, flags := { stmt_start := false, expr_start := false, in_preproc := false, in_sparen := false, in_for := false, in_namespace := false, long_block := false }, str := "\x7b", orig_line := 0, orig_col := 0, column := 0, parent_ref := none }, { ctype := BraceCleanup.E_Token.CT_WORD, parent_type := BraceCleanup.E_Token.CT_NONE, level := 0, brace_level := 0, pp_level := 0, flags := { stmt_start := false, expr_start := false, in_preproc := false, in_sparen := false, in_for := false, in_namespace := false, long_block := false }, str := "x", orig_line := 0, orig_col := 0, column := 0, parent_ref := none }, { ctype := BraceCleanup.E_Token.CT_SEMICOLON, parent_type := BraceCleanup.E_Token.CT_NONE, level := 0, brace_level := 0, pp_level := 0, flags := { stmt_start := false, expr_start := false, in_preproc := false, in_sparen := false, in_for := false, in_namespace := false, long_block := false }, str := ";", orig_line := 0, orig_col := 0, column := 0, parent_ref := none }, { ctype := BraceCleanup.E_Token.CT_BRACE_CLOSE, parent_type := BraceCleanup.E_Token.CT_NONE, level := 0, brace_level := 0, pp_level := 0, flags := { stmt_start := false, expr_start := false, in_preproc := false, in_sparen := false, in_for := false, in_namespace := false, long_block := false }, str := "\x7d", orig_line := 0, orig_col := 0, column := 0, parent_ref := none }, { ctype := BraceCleanup.E_Token.CT_WHILE, parent_type := BraceCleanup.E_Token.CT_NONE, level := 0, brace_level := 0, pp_level := 0, flags := { stmt_start := false, expr_start := false, in_preproc := false, in_sparen := false, in_for := false, in_namespace := false, long_block := false }, str := "while", orig_line := 0, orig_col := 0, column := 0, parent_ref := none }, { ctype := BraceCleanup.E_Token.CT_PAREN_OPEN, parent_type := BraceCleanup.E_Token.CT_NONE, level := 0, brace_level := 0, pp_level := 0, flags := { stmt_start := false, expr_start := false, in_preproc := false, in_sparen := false, in_for := false, in_namespace := false, long_block := false }, str := "(", orig_line := 0, orig_col := 0, column := 0, parent_ref := none }, { ctype := BraceCleanup.E_Token.CT_WORD, parent_type := BraceCleanup.E_Token.CT_NONE, level := 0, brace_level := 0, pp_level := 0, flags := { stmt_start := false, expr_start := false, in_preproc := false, in_sparen := false, in_for := false, in_namespace := false, long_block := false }, str := "y", orig_line := 0, orig_col := 0, column := 0, parent_ref := none }, { ctype := BraceCleanup.E_Token.CT_PAREN_CLOSE, parent_type := BraceCleanup.E_Token.CT_NONE, level := 0, brace_level := 0, pp_level := 0, flags := { stmt_start := false, expr_start := false, in_preproc := false, in_sparen := false, in_for := false, in_namespace := false, long_block := false }, str := ")", orig_line := 0, orig_col := 0, column := 0, parent_ref := none }, { ctype := BraceCleanup.E_Token.CT_SEMICOLON, parent_type := BraceCleanup.E_Token.CT_NONE, level := 0, brace_level := 0, pp_level := 0, flags := { stmt_start := false, expr_start := false, in_preproc := false, in_sparen := false, in_for := false, in_namespace := false, long_block := false }, str := ";", orig_line := 0, orig_col := 0, column := 0, parent_ref := none }], cur := 2, frm := { stack := [{ etype := BraceCleanup.E_Token.CT_BRACE_OPEN, parent := BraceCleanup.E_Token.CT_DO, stage := BraceCleanup.BraceStage.NONE, pcIdx := some 1 }, { etype := BraceCleanup.E_Token.CT_DO, parent := BraceCleanup.E_Token.CT_NONE, stage := BraceCleanup.BraceStage.BRACE_DO, pcIdx := some 0 }, { etype := BraceCleanup.E_Token.CT_EOF, parent := BraceCleanup.E_Token.CT_NONE, stage := BraceCleanup.BraceStage.NONE, pcIdx := none }], level := 1, brace_level := 1, pp_level := 0, sparen_count := 0, stmt_count := 0, expr_count := 0 }, bs := { frames := [], in_preproc := BraceCleanup.E_Token.CT_NONE, pp_level := 0, consumed := false }, warnings := [] }

def c7S3 : PState := { toks := [{ ctype := BraceCleanup.E_Token.CT_DO, parent_type := BraceCleanup.E_Token.CT_NONE, level := 0, brace_level := 0, pp_level := 0, flags := { stmt_start := true, expr_start := true, in_preproc := false, in_sparen := false, in_for := false, in_namespace := false, long_block := false }, str := "do", orig_line := 0, orig_col := 0, column := 0, parent_ref := none }, { ctype := BraceCleanup.E_Token.CT_BRACE_OPEN, parent_type := BraceCleanup.E_Token.CT_DO, level := 0, brace_level := 0, pp_level := 0, flags := { stmt_start := false, expr_start := false, in_preproc := false, in_sparen := false, in_for := false, in_namespace := false, long_block := false }, str := "\x7b", orig_line := 0, orig_col := 0, column := 0, parent_ref := none }, { ctype := BraceCleanup.E_Token.CT_WORD, parent_type := BraceCleanup.E_Token.CT_NONE, level := 1, brace_level := 1, pp_level := 0, flags := { stmt_start := true, expr_start := true, in_preproc := false, in_sparen := false, in_for := false, in_namespace := false, long_block := false }, str := "x", orig_line := 0, orig_col := 0, column := 0, parent_ref := none }, { ctype := BraceCleanup.E_Token.CT_SEMICOLON, parent_type := BraceCleanup.E_Token.CT_NONE, level := 0, brace_level := 0, pp_level := 0, flags := { stmt_start := false, expr_start := false, in_preproc := false, in_sparen := false, in_for := false, in_namespace := false, long_block := false }, str := ";", orig_line := 0, orig_col := 0, column := 0, parent_ref := none }, { ctype := BraceCleanup.E_Token.CT_BRACE_CLOSE, parent_type := BraceCleanup.E_Token.CT_NONE, level := 0, brace_level := 0, pp_level := 0, flags := { stmt_start := false, expr_start := false, in_preproc := false, in_sparen := false, in_for := false, in_namespace := false, long_block := false }, str := "\x7d", orig_line := 0, orig_col := 0, column := 0, parent_ref := none }, { ctype := BraceCleanup.E_Token.CT_WHILE, parent_type := BraceCleanup.E_Token.CT_NONE, level := 0, brace_level := 0, pp_level := 0, flags := { stmt_start := false, expr_start := false, in_preproc := false, in_sparen := false, in_for := false, in_namespace := false, long_block := false }, str := "while", orig_line := 0, orig_col := 0, column := 0, parent_ref := none }, { ctype := BraceCleanup.E_Token.CT_PAREN_OPEN, parent_type := BraceCleanup.E_Token.CT_NONE, level := 0, brace_level := 0, pp_level := 0, flags := { stmt_start := false, expr_start := false, in_preproc := false, in_sparen := false, in_for := false, in_namespace := false, long_block := false }, str := "(", orig_line := 0, orig_col := 0, column := 0, parent_ref := none }, { ctype := BraceCleanup.E_Token.CT_WORD, parent_type := BraceCleanup.E_Token.CT_NONE, level := 0, brace_level := 0, pp_level := 0, flags := { stmt_start := false, expr_start := false, in_preproc := false, in_sparen := false, in_for := false, in_namespace := false, long_block := false }, str := "y", orig_line := 0, orig_col := 0, column := 0, parent_ref := none }, { ctype := BraceCleanup.E_Token.CT_PAREN_CLOSE, parent_type := BraceCleanup.E_Token.CT_NONE, level := 0, brace_level := 0, pp_level := 0, flags := { stmt_start := false, expr_start := false, in_preproc := false, in_sparen := false, in_for := false, in_namespace := false, long_block := false }, str := ")", orig_line := 0, orig_col := 0, column := 0, parent_ref := none }, { ctype := BraceCleanup.E_Token.CT_SEMICOLON, parent_type := BraceCleanup.E_Token.CT_NONE, level := 0, brace_level := 0, pp_level := 0, flags := { stmt_start := false, expr_start := false, in_preproc := false, in_sparen := false, in_for := false, in_namespace := false, long_block := false }, str := ";", orig_line := 0, orig_col := 0, column := 0, parent_ref := none }], cur := 3, frm := { stack := [{ etype := BraceCleanup.E_Token.CT_BRACE_OPEN, parent := BraceCleanup.E_Token.CT_DO, stage := BraceCleanup.BraceStage.NONE, pcIdx := some 1 }, { etype := BraceCleanup.E_Token.CT_DO, parent := BraceCleanup.E_Token.CT_NONE, stage := BraceCleanup.BraceStage.BRACE_DO, pcIdx := some 0 }, { etype := BraceCleanup.E_Token.CT_EOF, parent := BraceCleanup.E_Token.CT_NONE, stage := BraceCleanup.BraceStage.NONE, pcIdx := none }], level := 1, brace_level := 1, pp_level := 0, sparen_count := 0, stmt_count := 1, expr_count := 1 }, bs := { frames := [], in_preproc := BraceCleanup.E_Token.CT_NONE, pp_level := 0, consumed := false }, warnings := [] }

def c7S4 : PState := { toks := [{ ctype := BraceCleanup.E_Token.CT_DO, parent_type := BraceCleanup.E_Token.CT_NONE, level := 0, brace_level := 0, pp_level := 0, flags := { stmt_start := true, expr_start := true, in_preproc := false, in_sparen := false, in_for := false, in_namespace := false, long_block := false }, str := "do", orig_line := 0, orig_col := 0, column := 0, parent_ref := none }, { ctype := BraceCleanup.E_Token.CT_BRACE_OPEN, parent_type := BraceCleanup.E_Token.CT_DO, level := 0, brace_level := 0, pp_level := 0, flags := { stmt_start := false, expr_start := false, in_preproc := false, in_sparen := false, in_for := false, in_namespace := false, long_block := false }, str := "\x7b", orig_line := 0, orig_col := 0, column := 0, parent_ref := none }, { ctype := BraceCleanup.E_Token.CT_WORD, parent_type := BraceCleanup.E_Token.CT_NONE, level := 1, brace_level := 1, pp_level := 0, flags := { stmt_start := true, expr_start := true, in_preproc := false, in_sparen := false, in_for := false, in_namespace := false, long_block := false }, str := "x", orig_line := 0, orig_col := 0, column := 0, parent_ref := none }, { ctype := BraceCleanup.E_Token.CT_SEMICOLON, parent_type := BraceCleanup.E_Token.CT_NONE, level := 1, brace_level := 1, pp_level := 0, flags := { stmt_start := false, expr_start := false, in_preproc := false, in_sparen := false, in_for := false, in_namespace := false, long_block := false }, str := ";", orig_line := 0, orig_col := 0, column := 0, parent_ref := none }, { ctype := BraceCleanup.E_Token.CT_BRACE_CLOSE, parent_type := BraceCleanup.E_Token.CT_NONE, level := 0, brace_level := 0, pp_level := 0, flags := { stmt_start := false, expr_start := false, in_preproc := false, in_sparen := false, in_for := false, in_namespace := false, long_block := false }, str := "\x7d", orig_line := 0, orig_col := 0, column := 0, parent_ref := none }, { ctype := BraceCleanup.E_Token.CT_WHILE, parent_type := BraceCleanup.E_Token.CT_NONE, level := 0, brace_level := 0, pp_level := 0, flags := { stmt_start := false, expr_start := false, in_preproc := false, in_sparen := false, in_for := false, in_namespace := false, long_block := false }, str := "while", orig_line := 0, orig_col := 0, column := 0, parent_ref := none }, { ctype := BraceCleanup.E_Token.CT_PAREN_OPEN, parent_type := BraceCleanup.E_Token.CT_NONE, level := 0, brace_level := 0, pp_level := 0, flags := { stmt_start := false, expr_start := false, in_preproc := false, in_sparen := false, in_for := false, in_namespace := false, long_block := false }, str := "(", orig_line := 0, orig_col := 0, column := 0, parent_ref := none }, { ctype := BraceCleanup.E_Token.CT_WORD, parent_type := BraceCleanup.E_Token.CT_NONE, level := 0, brace_level := 0, pp_level := 0, flags := { stmt_start := false, expr_start := false, in_preproc := false, in_sparen := false, in_for := false, in_namespace := false, long_block := false }, str := "y", orig_line := 0, orig_col := 0, column := 0, parent_ref := none }, { ctype := BraceCleanup.E_Token.CT_PAREN_CLOSE, parent_type := BraceCleanup.E_Token.CT_NONE, level := 0, brace_level := 0, pp_level := 0, flags := { stmt_start := false, expr_start := false, in_preproc := false, in_sparen := false, in_for := false, in_namespace := false, long_block := false }, str := ")", orig_line := 0, orig_col := 0, column := 0, parent_ref := none }, { ctype := BraceCleanup.E_Token.CT_SEMICOLON, parent_type := BraceCleanup.E_Token.CT_NONE, level := 0, brace_level := 0, pp_level := 0, flags := { stmt_start := false, expr_start := false, in_preproc := false, in_sparen := false, in_for := false, in_namespace := false, long_block := false }, str := ";", orig_line := 0, orig_col := 0, column := 0, parent_ref := none }], cur := 4, frm := { stack := [{ etype := BraceCleanup.E_Token.CT_BRACE_OPEN, parent := BraceCleanup.E_Token.CT_DO, stage := BraceCleanup.BraceStage.NONE, pcIdx := some 1 }, { etype := BraceCleanup.E_Token.CT_DO, parent := BraceCleanup.E_Token.CT_NONE, stage := BraceCleanup.BraceStage.BRACE_DO, pcIdx := some 0 }, { etype := BraceCleanup.E_Token.CT_EOF, parent := BraceCleanup.E_Token.CT_NONE, stage := BraceCleanup.BraceStage.NONE, pcIdx := none }], level := 1, brace_level := 1, pp_level := 0, sparen_count := 0, stmt_count := 0, expr_count := 0 }, bs := { frames := [], in_preproc := BraceCleanup.E_Token.CT_NONE, pp_level := 0, consumed := false }, warnings := [] }

def c7S5 : PState := { toks := [{ ctype := BraceCleanup.E_Token.CT_DO, parent_type := BraceCleanup.E_Token.CT_NONE, level := 0, brace_level := 0, pp_level := 0, flags := { stmt_start := true, expr_start := true, in_preproc := false, in_sparen := false, in_for := false, in_namespace := false, long_block := false }, str := "do", orig_line := 0, orig_col := 0, column := 0, parent_ref := none }, { ctype := BraceCleanup.E_Token.CT_BRACE_OPEN, parent_type := BraceCleanup.E_Token.CT_DO, level := 0, brace_level := 0, pp_level := 0, flags := { stmt_start := false, expr_start := false, in_preproc := false, in_sparen := false, in_for := false, in_namespace := false, long_block := false }, str := "\x7b", orig_line := 0, orig_col := 0, column := 0, parent_ref := none }, { ctype := BraceCleanup.E_Token.CT_WORD, parent_type := BraceCleanup.E_Token.CT_NONE, level := 1, brace_level := 1, pp_level := 0, flags := { stmt_start := true, expr_start := true, in_preproc := false, in_sparen := false, in_for := false, in_namespace := false, long_block := false }, str := "x", orig_line := 0, orig_col := 0, column := 0, parent_ref := none }, { ctype := BraceCleanup.E_Token.CT_SEMICOLON, parent_type := BraceCleanup.E_Token.CT_NONE, level := 1, brace_level := 1, pp_level := 0, flags := { stmt_start := false, expr_start := false, in_preproc := false, in_sparen := false, in_for := false, in_namespace := false, long_block := false }, str := ";", orig_line := 0, orig_col := 0, column := 0, parent_ref := none }, { ctype := BraceCleanup.E_Token.CT_BRACE_CLOSE, parent_type := BraceCleanup.E_Token.CT_DO, level := 0, brace_level := 0, pp_level := 0, flags := { stmt_start := false, expr_start := false, in_preproc := false, in_sparen := false, in_for := false, in_namespace := false, long_block := false }, str := "\x7d", orig_line := 0, orig_col := 0, column := 0, parent_ref := none }, { ctype := BraceCleanup.E_Token.CT_WHILE, parent_type := BraceCleanup.E_Token.CT_NONE, level := 0, brace_level := 0, pp_level := 0, flags := { stmt_start := false, expr_start := false, in_preproc := false, in_sparen := false, in_for := false, in_namespace := false, long_block := false }, str := "while", orig_line := 0, orig_col := 0, column := 0, parent_ref := none }, { ctype := BraceCleanup.E_Token.CT_PAREN_OPEN, parent_type := BraceCleanup.E_Token.CT_NONE, level := 0, brace_level := 0, pp_level := 0, flags := { stmt_start := false, expr_start := false, in_preproc := false, in_sparen := false, in_for := false, in_namespace := false, long_block := false }, str := "(", orig_line := 0, orig_col := 0, column := 0, parent_ref := none }, { ctype := BraceCleanup.E_Token.CT_WORD, parent_type := BraceCleanup.E_Token.CT_NONE, level := 0, brace_level := 0, pp_level := 0, flags := { stmt_start := false, expr_start := false, in_preproc := false, in_sparen := false, in_for := false, in_namespace := false, long_block := false }, str := "y", orig_line := 0, orig_col := 0, column := 0, parent_ref := none }, { ctype := BraceCleanup.E_Token.CT_PAREN_CLOSE, parent_type := BraceCleanup.E_Token.CT_NONE, level := 0, brace_level := 0, pp_level := 0, flags := { stmt_start := false, expr_start := false, in_preproc := false, in_sparen := false, in_for := false, in_namespace := false, long_block := false }, str := ")", orig_line := 0, orig_col := 0, column := 0, parent_ref := none }, { ctype := BraceCleanup.E_Token.CT_SEMICOLON, parent_type := BraceCleanup.E_Token.CT_NONE, level := 0, brace_level := 0, pp_level := 0, flags := { stmt_start := false, expr_start := false, in_preproc := false, in_sparen := false, in_for := false, in_namespace := false, long_block := false }, str := ";", orig_line := 0, orig_col := 0, column := 0, parent_ref := none }], cur := 5, frm := { stack := [{ etype := BraceCleanup.E_Token.CT_DO, parent := BraceCleanup.E_Token.CT_NONE, stage := BraceCleanup.BraceStage.WHILE, pcIdx := some 0 }, { etype := BraceCleanup.E_Token.CT_EOF, parent := BraceCleanup.E_Token.CT_NONE, stage := BraceCleanup.BraceStage.NONE, pcIdx := none }], level := 0, brace_level := 0, pp_level := 0, sparen_count := 0, stmt_count := 0, expr_count := 0 }, bs := { frames := [], in_preproc := BraceCleanup.E_Token.CT_NONE, pp_level := 0, consumed := true }, warnings := [] }

def c7S6 : PState := { toks := [{ ctype := BraceCleanup.E_Token.CT_DO, parent_type := BraceCleanup.E_Token.CT_NONE, level := 0, brace_level := 0, pp_level := 0, flags := { stmt_start := true, expr_start := true, in_preproc := false, in_sparen := false, in_for := false, in_namespace := false, long_block := false }, str := "do", orig_line := 0, orig_col := 0, column := 0, parent_ref := none }, { ctype := BraceCleanup.E_Token.CT_BRACE_OPEN, parent_type := BraceCleanup.E_Token.CT_DO, level := 0, brace_level := 0, pp_level := 0, flags := { stmt_start := false, expr_start := false, in_preproc := false, in_sparen := false, in_for := false, in_namespace := false, long_block := false }, str := "\x7b", orig_line := 0, orig_col := 0, column := 0, parent_ref := none }, { ctype := BraceCleanup.E_Token.CT_WORD, parent_type := BraceCleanup.E_Token.CT_NONE, level := 1, brace_level := 1, pp_level := 0, flags := { stmt_start := true, expr_start := true, in_preproc := false, in_sparen := false, in_for := false, in_namespace := false, long_block := false }, str := "x", orig_line := 0, orig_col := 0, column := 0, parent_ref := none }, { ctype := BraceCleanup.E_Token.CT_SEMICOLON, parent_type := BraceCleanup.E_Token.CT_NONE, level := 1, brace_level := 1, pp_level := 0, flags := { stmt_start := false, expr_start := false, in_preproc := false, in_sparen := false, in_for := false, in_namespace := false, long_block := false }, str := ";", orig_line := 0, orig_col := 0, column := 0, parent_ref := none }, { ctype := BraceCleanup.E_Token.CT_BRACE_CLOSE, parent_type := BraceCleanup.E_Token.CT_DO, level := 0, brace_level := 0, pp_level := 0, flags := { stmt_start := false, expr_start := false, in_preproc := false, in_sparen := false, in_for := false, in_namespace := false, long_block := false }, str := "\x7d", orig_line := 0, orig_col := 0, column := 0, parent_ref := none }, { ctype := BraceCleanup.E_Token.CT_WHILE_OF_DO, parent_type := BraceCleanup.E_Token.CT_NONE, level := 0, brace_level := 0, pp_level := 0, flags := { stmt_start := true, expr_start := true, in_preproc := false, in_sparen := false, in_for := false, in_namespace := false, long_block := false }, str := "while", orig_line := 0, orig_col := 0, column := 0, parent_ref := none }, { ctype := BraceCleanup.E_Token.CT_PAREN_OPEN, parent_type := BraceCleanup.E_Token.CT_NONE, level := 0, brace_level := 0, pp_level := 0, flags := { stmt_start := false, expr_start := false, in_preproc := false, in_sparen := false, in_for := false, in_namespace := false, long_block := false }, str := "(", orig_line := 0, orig_col := 0, column := 0, parent_ref := none }, { ctype := BraceCleanup.E_Token.CT_WORD, parent_type := BraceCleanup.E_Token.CT_NONE, level := 0, brace_level := 0, pp_level := 0, flags := { stmt_start := false, expr_start := false, in_preproc := false, in_sparen := false, in_for := false, in_namespace := false, long_block := false }, str := "y", orig_line := 0, orig_col := 0, column := 0, parent_ref := none }, { ctype := BraceCleanup.E_Token.CT_PAREN_CLOSE, parent_type := BraceCleanup.E_Token.CT_NONE, level := 0, brace_level := 0, pp_level := 0, flags := { stmt_start := false, expr_start := false, in_preproc := false, in_sparen := false, in_for := false, in_namespace := false, long_block := false }, str := ")", orig_line := 0, orig_col := 0, column := 0, parent_ref := none }, { ctype := BraceCleanup.E_Token.CT_SEMICOLON, parent_type := BraceCleanup.E_Token.CT_NONE, level := 0, brace_level := 0, pp_level := 0, flags := { stmt_start := false, expr_start := false, in_preproc := false, in_sparen := false, in_for := false, in_namespace := false, long_block := false }, str := ";", orig_line := 0, orig_col := 0, column := 0, parent_ref := none }], cur := 6, frm := { stack := [{ etype := BraceCleanup.E_Token.CT_WHILE_OF_DO, parent := BraceCleanup.E_Token.CT_NONE, stage := BraceCleanup.BraceStage.WOD_PAREN, pcIdx := some 0 }, { etype := BraceCleanup.E_Token.CT_EOF, parent := BraceCleanup.E_Token.CT_NONE, stage := BraceCleanup.BraceStage.NONE, pcIdx := none }], level := 0, brace_level := 0, pp_level := 0, sparen_count := 0, stmt_count := 1, expr_count := 1 }, bs := { frames := [], in_preproc := BraceCleanup.E_Token.CT_NONE, pp_level := 0, consumed := false }, warnings := [] }

def c7S7 : PState := { toks := [{ ctype := BraceCleanup.E_Token.CT_DO, parent_type := BraceCleanup.E_Token.CT_NONE, level := 0, brace_level := 0, pp_level := 0, flags := { stmt_start := true, expr_start := true, in_preproc := false, in_sparen := false, in_for := false, in_namespace := false, long_block := false }, str := "do", orig_line := 0, orig_col := 0, column := 0, parent_ref := none }, { ctype := BraceCleanup.E_Token.CT_BRACE_OPEN, parent_type := BraceCleanup.E_Token.CT_DO, level := 0, brace_level := 0, pp_level := 0, flags := { stmt_start := false, expr_start := false, in_preproc := false, in_sparen := false, in_for := false, in_namespace := false, long_block := false }, str := "\x7b", orig_line := 0, orig_col := 0, column := 0, parent_ref := none }, { ctype := BraceCleanup.E_Token.CT_WORD, parent_type := BraceCleanup.E_Token.CT_NONE, level := 1, brace_level := 1, pp_level := 0, flags := { stmt_start := true, expr_start := true, in_preproc := false, in_sparen := false, in_for := false, in_namespace := false, long_block := false }, str := "x", orig_line := 0, orig_col := 0, column := 0, parent_ref := none }, { ctype := BraceCleanup.E_Token.CT_SEMICOLON, parent_type := BraceCleanup.E_Token.CT_NONE, level := 1, brace_level := 1, pp_level := 0, flags := { stmt_start := false, expr_start := false, in_preproc := false, in_sparen := false, in_for := false, in_namespace := false, long_block := false }, str := ";", orig_line := 0, orig_col := 0, column := 0, parent_ref := none }, { ctype := BraceCleanup.E_Token.CT_BRACE_CLOSE, parent_type := BraceCleanup.E_Token.CT_DO, level := 0, brace_level := 0, pp_level := 0, flags := { stmt_start := false, expr_start := false, in_preproc := false, in_sparen := false, in_for := false, in_namespace := false, long_block := false }, str := "\x7d", orig_line := 0, orig_col := 0, column := 0, parent_ref := none }, { ctype := BraceCleanup.E_Token.CT_WHILE_OF_DO, parent_type := BraceCleanup.E_Token.CT_NONE, level := 0, brace_level := 0, pp_level := 0, flags := { stmt_start := true, expr_start := true, in_preproc := false, in_sparen := false, in_for := false, in_namespace := false, long_block := false }, str := "while", orig_line := 0, orig_col := 0, column := 0, parent_ref := none }, { ctype := BraceCleanup.E_Token.CT_SPAREN_OPEN, parent_type := BraceCleanup.E_Token.CT_WHILE_OF_DO, level := 0, brace_level := 0, pp_level := 0, flags := { stmt_start := false, expr_start := false, in_preproc := false, in_sparen := false, in_for := false, in_namespace := false, long_block := false }, str := "(", orig_line := 0, orig_col := 0, column := 0, parent_ref := none }, { ctype := BraceCleanup.E_Token.CT_WORD, parent_type := BraceCleanup.E_Token.CT_NONE, level := 0, brace_level := 0, pp_level := 0, flags := { stmt_start := false, expr_start := false, in_preproc := false, in_sparen := false, in_for := false, in_namespace := false, long_block := false }, str := "y", orig_line := 0, orig_col := 0, column := 0, parent_ref := none }, { ctype := BraceCleanup.E_Token.CT_PAREN_CLOSE, parent_type := BraceCleanup.E_Token.CT_NONE, level := 0, brace_level := 0, pp_level := 0, flags := { stmt_start := false, expr_start := false, in_preproc := false, in_sparen := false, in_for := false, in_namespace := false, long_block := false }, str := ")", orig_line := 0, orig_col := 0, column := 0, parent_ref := none }, { ctype := BraceCleanup.E_Token.CT_SEMICOLON, parent_type := BraceCleanup.E_Token.CT_NONE, level := 0, brace_level := 0, pp_level := 0, flags := { stmt_start := false, expr_start := false, in_preproc := false, in_sparen := false, in_for := false, in_namespace := false, long_block := false }, str := ";", orig_line := 0, orig_col := 0, column := 0, parent_ref := none }], cur := 7, frm := { stack := [{ etype := BraceCleanup.E_Token.CT_SPAREN_OPEN, parent := BraceCleanup.E_Token.CT_WHILE_OF_DO, stage := BraceCleanup.BraceStage.NONE, pcIdx := some 6 }, { etype := BraceCleanup.E_Token.CT_WHILE_OF_DO, parent := BraceCleanup.E_Token.CT_NONE, stage := BraceCleanup.BraceStage.WOD_PAREN, pcIdx := some 0 }, { etype := BraceCleanup.E_Token.CT_EOF, parent := BraceCleanup.E_Token.CT_NONE, stage := BraceCleanup.BraceStage.NONE, pcIdx := none }], level := 1, brace_level := 0, pp_level := 0, sparen_count := 1, stmt_count := 2, expr_count := 0 }, bs := { frames := [], in_preproc := BraceCleanup.E_Token.CT_NONE, pp_level := 0, consumed := false }, warnings := [] }

def c7S8 : PState := { toks := [{ ctype := BraceCleanup.E_Token.CT_DO, parent_type := BraceCleanup.E_Token.CT_NONE, level := 0, brace_level := 0, pp_level := 0, flags := { stmt_start := true, expr_start := true, in_preproc := false, in_sparen := false, in_for := false, in_namespace := false, long_block := false }, str := "do", orig_line := 0, orig_col := 0, column := 0, parent_ref := none }, { ctype := BraceCleanup.E_Token.CT_BRACE_OPEN, parent_type := BraceCleanup.E_Token.CT_DO, level := 0, brace_level := 0, pp_level := 0, flags := { stmt_start := false, expr_start := false, in_preproc := false, in_sparen := false, in_for := false, in_namespace := false, long_block := false }, str := "\x7b", orig_line := 0, orig_col := 0, column := 0, parent_ref := none }, { ctype := BraceCleanup.E_Token.CT_WORD, parent_type := BraceCleanup.E_Token.CT_NONE, level := 1, brace_level := 1, pp_level := 0, flags := { stmt_start := true, expr_start := true, in_preproc := false, in_sparen := false, in_for := false, in_namespace := false, long_block := false }, str := "x", orig_line := 0, orig_col := 0, column := 0, parent_ref := none }, { ctype := BraceCleanup.E_Token.CT_SEMICOLON, parent_type := BraceCleanup.E_Token.CT_NONE, level := 1, brace_level := 1, pp_level := 0, flags := { stmt_start := false, expr_start := false, in_preproc := false, in_sparen := false, in_for := false, in_namespace := false, long_block := false }, str := ";", orig_line := 0, orig_col := 0, column := 0, parent_ref := none }, { ctype := BraceCleanup.E_Token.CT_BRACE_CLOSE, parent_type := BraceCleanup.E_Token.CT_DO, level := 0, brace_level := 0, pp_level := 0, flags := { stmt_start := false, expr_start := false, in_preproc := false, in_sparen := false, in_for := false, in_namespace := false, long_block := false }, str := "\x7d", orig_line := 0, orig_col := 0, column := 0, parent_ref := none }, { ctype := BraceCleanup.E_Token.CT_WHILE_OF_DO, parent_type := BraceCleanup.E_Token.CT_NONE, level := 0, brace_level := 0, pp_level := 0, flags := { stmt_start := true, expr_start := true, in_preproc := false, in_sparen := false, in_for := false, in_namespace := false, long_block := false }, str := "while", orig_line := 0, orig_col := 0, column := 0, parent_ref := none }, { ctype := BraceCleanup.E_Token.CT_SPAREN_OPEN, parent_type := BraceCleanup.E_Token.CT_WHILE_OF_DO, level := 0, brace_level := 0, pp_level := 0, flags := { stmt_start := false, expr_start := false, in_preproc := false, in_sparen := false, in_for := false, in_namespace := false, long_block := false }, str := "(", orig_line := 0, orig_col := 0, column := 0, parent_ref := none }, { ctype := BraceCleanup.E_Token.CT_WORD, parent_type := BraceCleanup.E_Token.CT_NONE, level := 1, brace_level := 0, pp_level := 0, flags := { stmt_start := false, expr_start := true, in_preproc := false, in_sparen := true, in_for := false, in_namespace := false, long_block := false }, str := "y", orig_line := 0, orig_col := 0, column := 0, parent_ref := none }, { ctype := BraceCleanup.E_Token.CT_PAREN_CLOSE, parent_type := BraceCleanup.E_Token.CT_NONE, level := 0, brace_level := 0, pp_level := 0, flags := { stmt_start := false, expr_start := false, in_preproc := false, in_sparen := false, in_for := false, in_namespace := false, long_block := false }, str := ")", orig_line := 0, orig_col := 0, column := 0, parent_ref := none }, { ctype := BraceCleanup.E_Token.CT_SEMICOLON, parent_type := BraceCleanup.E_Token.CT_NONE, level := 0, brace_level := 0, pp_level := 0, flags := { stmt_start := false, expr_start := false, in_preproc := false, in_sparen := false, in_for := false, in_namespace := false, long_block := false }, str := ";", orig_line := 0, orig_col := 0, column := 0, parent_ref := none }], cur := 8, frm := { stack := [{ etype := BraceCleanup.E_Token.CT_SPAREN_OPEN, parent := BraceCleanup.E_Token.CT_WHILE_OF_DO, stage := BraceCleanup.BraceStage.NONE, pcIdx := some 6 }, { etype := BraceCleanup.E_Token.CT_WHILE_OF_DO, parent := BraceCleanup.E_Token.CT_NONE, stage := BraceCleanup.BraceStage.WOD_PAREN, pcIdx := some 0 }, { etype := BraceCleanup.E_Token.CT_EOF, parent := BraceCleanup.E_Token.CT_NONE, stage := BraceCleanup.BraceStage.NONE, pcIdx := none }], level := 1, brace_level := 0, pp_level := 0, sparen_count := 1, stmt_count := 3, expr_count := 1 }, bs := { frames := [], in_preproc := BraceCleanup.E_Token.CT_NONE, pp_level := 0, consumed := false }, warnings := [] }

def c7S9 : PState := { toks := [{ ctype := BraceCleanup.E_Token.CT_DO, parent_type := BraceCleanup.E_Token.CT_NONE, level := 0, brace_level := 0, pp_level := 0, flags := { stmt_start := true, expr_start := true, in_preproc := false, in_sparen := false, in_for := false, in_namespace := false, long_block := false }, str := "do", orig_line := 0, orig_col := 0, column := 0, parent_ref := none }, { ctype := BraceCleanup.E_Token.CT_BRACE_OPEN, parent_type := BraceCleanup.E_Token.CT_DO, level := 0, brace_level := 0, pp_level := 0, flags := { stmt_start := false, expr_start := false, in_preproc := false, in_sparen := false, in_for := false, in_namespace := false, long_block := false }, str := "\x7b", orig_line := 0, orig_col := 0, column := 0, parent_ref := none }, { ctype := BraceCleanup.E_Token.CT_WORD, parent_type := BraceCleanup.E_Token.CT_NONE, level := 1, brace_level := 1, pp_level := 0, flags := { stmt_start := true, expr_start := true, in_preproc := false, in_sparen := false, in_for := false, in_namespace := false, long_block := false }, str := "x", orig_line := 0, orig_col := 0, column := 0, parent_ref := none }, { ctype := BraceCleanup.E_Token.CT_SEMICOLON, parent_type := BraceCleanup.E_Token.CT_NONE, level := 1, brace_level := 1, pp_level := 0, flags := { stmt_start := false, expr_start := false, in_preproc := false, in_sparen := false, in_for := false, in_namespace := false, long_block := false }, str := ";", orig_line := 0, orig_col := 0, column := 0, parent_ref := none }, { ctype := BraceCleanup.E_Token.CT_BRACE_CLOSE, parent_type := BraceCleanup.E_Token.CT_DO, level := 0, brace_level := 0, pp_level := 0, flags := { stmt_start := false, expr_start := false, in_preproc := false, in_sparen := false, in_for := false, in_namespace := false, long_block := false }, str := "\x7d", orig_line := 0, orig_col := 0, column := 0, parent_ref := none }, { ctype := BraceCleanup.E_Token.CT_WHILE_OF_DO, parent_type := BraceCleanup.E_Token.CT_NONE, level := 0, brace_level := 0, pp_level := 0, flags := { stmt_start := true, expr_start := true, in_preproc := false, in_sparen := false, in_for := false, in_namespace := false, long_block := false }, str := "while", orig_line := 0, orig_col := 0, column := 0, parent_ref := none }, { ctype := BraceCleanup.E_Token.CT_SPAREN_OPEN, parent_type := BraceCleanup.E_Token.CT_WHILE_OF_DO, level := 0, brace_level := 0, pp_level := 0, flags := { stmt_start := false, expr_start := false, in_preproc := false, in_sparen := false, in_for := false, in_namespace := false, long_block := false }, str := "(", orig_line := 0, orig_col := 0, column := 0, parent_ref := none }, { ctype := BraceCleanup.E_Token.CT_WORD, parent_type := BraceCleanup.E_Token.CT_NONE, level := 1, brace_level := 0, pp_level := 0, flags := { stmt_start := false, expr_start := true, in_preproc := false, in_sparen := true, in_for := false, in_namespace := false, long_block := false }, str := "y", orig_line := 0, orig_col := 0, column := 0, parent_ref := none }, { ctype := BraceCleanup.E_Token.CT_SPAREN_CLOSE, parent_type := BraceCleanup.E_Token.CT_WHILE_OF_DO, level := 0, brace_level := 0, pp_level := 0, flags := { stmt_start := false, expr_start := false, in_preproc := false, in_sparen := false, in_for := false, in_namespace := false, long_block := false }, str := ")", orig_line := 0, orig_col := 0, column := 0, parent_ref := none }, { ctype := BraceCleanup.E_Token.CT_SEMICOLON, parent_type := BraceCleanup.E_Token.CT_NONE, level := 0, brace_level := 0, pp_level := 0, flags := { stmt_start := false, expr_start := false, in_preproc := false, in_sparen := false, in_for := false, in_namespace := false, long_block := false }, str := ";", orig_line := 0, orig_col := 0, column := 0, parent_ref := none }], cur := 9, frm := { stack := [{ etype := BraceCleanup.E_Token.CT_WHILE_OF_DO, parent := BraceCleanup.E_Token.CT_NONE, stage := BraceCleanup.BraceStage.WOD_SEMI, pcIdx := some 0 }, { etype := BraceCleanup.E_Token.CT_EOF, parent := BraceCleanup.E_Token.CT_NONE, stage := BraceCleanup.BraceStage.NONE, pcIdx := none }], level := 0, brace_level := 0, pp_level := 0, sparen_count := 0, stmt_count := 4, expr_count := 2 }, bs := { frames := [], in_preproc := BraceCleanup.E_Token.CT_NONE, pp_level := 0, consumed := true }, warnings := [] }

def c7S10 : PState := { toks := [{ ctype := BraceCleanup.E_Token.CT_DO, parent_type := BraceCleanup.E_Token.CT_NONE, level := 0, brace_level := 0, pp_level := 0, flags := { stmt_start := true, expr_start := true, in_preproc := false, in_sparen := false, in_for := false, in_namespace := false, long_block := false }, str := "do", orig_line := 0, orig_col := 0, column := 0, parent_ref := none }, { ctype := BraceCleanup.E_Token.CT_BRACE_OPEN, parent_type := BraceCleanup.E_Token.CT_DO, level := 0, brace_level := 0, pp_level := 0, flags := { stmt_start := false, expr_start := false, in_preproc := false, in_sparen := false, in_for := false, in_namespace := false, long_block := false }, str := "\x7b", orig_line := 0, orig_col := 0, column := 0, parent_ref := none }, { ctype := BraceCleanup.E_Token.CT_WORD, parent_type := BraceCleanup.E_Token.CT_NONE, level := 1, brace_level := 1, pp_level := 0, flags := { stmt_start := true, expr_start := true, in_preproc := false, in_sparen := false, in_for := false, in_namespace := false, long_block := false }, str := "x", orig_line := 0, orig_col := 0, column := 0, parent_ref := none }, { ctype := BraceCleanup.E_Token.CT_SEMICOLON, parent_type := BraceCleanup.E_Token.CT_NONE, level := 1, brace_level := 1, pp_level := 0, flags := { stmt_start := false, expr_start := false, in_preproc := false, in_sparen := false, in_for := false, in_namespace := false, long_block := false }, str := ";", orig_line := 0, orig_col := 0, column := 0, parent_ref := none }, { ctype := BraceCleanup.E_Token.CT_BRACE_CLOSE, parent_type := BraceCleanup.E_Token.CT_DO, level := 0, brace_level := 0, pp_level := 0, flags := { stmt_start := false, expr_start := false, in_preproc := false, in_sparen := false, in_for := false, in_namespace := false, long_block := false }, str := "\x7d", orig_line := 0, orig_col := 0, column := 0, parent_ref := none }, { ctype := BraceCleanup.E_Token.CT_WHILE_OF_DO, parent_type := BraceCleanup.E_Token.CT_NONE, level := 0, brace_level := 0, pp_level := 0, flags := { stmt_start := true, expr_start := true, in_preproc := false, in_sparen := false, in_for := false, in_namespace := false, long_block := false }, str := "while", orig_line := 0, orig_col := 0, column := 0, parent_ref := none }, { ctype := BraceCleanup.E_Token.CT_SPAREN_OPEN, parent_type := BraceCleanup.E_Token.CT_WHILE_OF_DO, level := 0, brace_level := 0, pp_level := 0, flags := { stmt_start := false, expr_start := false, in_preproc := false, in_sparen := false, in_for := false, in_namespace := false, long_block := false }, str := "(", orig_line := 0, orig_col := 0, column := 0, parent_ref := none }, { ctype := BraceCleanup.E_Token.CT_WORD, parent_type := BraceCleanup.E_Token.CT_NONE, level := 1, brace_level := 0, pp_level := 0, flags := { stmt_start := false, expr_start := true, in_preproc := false, in_sparen := true, in_for := false, in_namespace := false, long_block := false }, str := "y", orig_line := 0, orig_col := 0, column := 0, parent_ref := none }, { ctype := BraceCleanup.E_Token.CT_SPAREN_CLOSE, parent_type := BraceCleanup.E_Token.CT_WHILE_OF_DO, level := 0, brace_level := 0, pp_level := 0, flags := { stmt_start := false, expr_start := false, in_preproc := false, in_sparen := false, in_for := false, in_namespace := false, long_block := false }, str := ")", orig_line := 0, orig_col := 0, column := 0, parent_ref := none }, { ctype := BraceCleanup.E_Token.CT_SEMICOLON, parent_type := BraceCleanup.E_Token.CT_WHILE_OF_DO, level := 0, brace_level := 0, pp_level := 0, flags := { stmt_start := false, expr_start := false, in_preproc := false, in_sparen := false, in_for := false, in_namespace := false, long_block := false }, str := ";", orig_line := 0, orig_col := 0, column := 0, parent_ref := none }], cur := 10, frm := { stack := [{ etype := BraceCleanup.E_Token.CT_EOF, parent := BraceCleanup.E_Token.CT_NONE, stage := BraceCleanup.BraceStage.NONE, pcIdx := none }], level := 0, brace_level := 0, pp_level := 0, sparen_count := 0, stmt_count := 0, expr_count := 0 }, bs := { frames := [], in_preproc := BraceCleanup.E_Token.CT_NONE, pp_level := 0, consumed := true }, warnings := [] }

/-! ## Theorems -/

theorem mbind_ok {α β : Type} (st : PState) (a : α)
    (f : PState → α → PState × Except Err β) :
    mbind (st, Except.ok a) f = f st a := rfl

theorem mbind_error {α β : Type} (st : PState) (e : Err)
    (f : PState → α → PState × Except Err β) :
    mbind (st, Except.error e) f = (st, Except.error e) := rfl

/-! ### Preservation helpers -/

theorem listModifyAt_comp {α β : Type} (g : α → β) (f : α → α)
    (hf : ∀ c, g (f c) = g c) (l : List α) (i j : Nat) (d : α) :
    g ((listModifyAt i f l).getD j d) = g (l.getD j d) := by
  induction l generalizing i j with
  | nil => cases i <;> rfl
  | cons x xs ih =>
    cases i with
    | zero => cases j with
      | zero => simp [listModifyAt, hf]
      | succ j => simp [listModifyAt]
    | succ i => cases j with
      | zero => simp [listModifyAt]
      | succ j => simpa [listModifyAt] using ih i j

theorem tgetN_modifyAt_comp {β : Type} (g : Chunk → β) (f : Chunk → Chunk)
    (hf : ∀ c, g (f c) = g c) (l : List Chunk) (i j : Nat) :
    g (tgetN (listModifyAt i f l) j) = g (tgetN l j) :=
  listModifyAt_comp g f hf l i j Chunk.null

theorem tgetN_modifyAt_peel {β : Type} (g : Chunk → β) {f : Chunk → Chunk}
    (hf : ∀ c, g (f c) = g c) {l : List Chunk} {i j : Nat} {t : β}
    (h : g (tgetN l j) = t) : g (tgetN (listModifyAt i f l) j) = t :=
  (tgetN_modifyAt_comp g f hf l i j).trans h

theorem listModifyAt_length {α : Type} (i : Nat) (f : α → α) (l : List α) :
    (listModifyAt i f l).length = l.length := by
  induction l generalizing i with
  | nil => cases i <;> rfl
  | cons x xs ih => cases i <;> simp [listModifyAt, ih]

theorem setChunk_frm (st : PState) (i : Nat) (f : Chunk → Chunk) :
    (setChunk st i f).frm = st.frm := rfl

theorem setChunk_cur (st : PState) (i : Nat) (f : Chunk → Chunk) :
    (setChunk st i f).cur = st.cur := rfl

theorem setChunk_bs (st : PState) (i : Nat) (f : Chunk → Chunk) :
    (setChunk st i f).bs = st.bs := rfl

theorem setChunk_warnings (st : PState) (i : Nat) (f : Chunk → Chunk) :
    (setChunk st i f).warnings = st.warnings := rfl

theorem setChunk_toks (st : PState) (i : Nat) (f : Chunk → Chunk) :
    (setChunk st i f).toks = listModifyAt i f st.toks := rfl

theorem setFrm_frm (st : PState) (f : ParseFrame → ParseFrame) :
    (setFrm st f).frm = f st.frm := rfl

theorem setFrm_cur (st : PState) (f : ParseFrame → ParseFrame) :
    (setFrm st f).cur = st.cur := rfl

theorem setFrm_bs (st : PState) (f : ParseFrame → ParseFrame) :
    (setFrm st f).bs = st.bs := rfl

theorem setFrm_warnings (st : PState) (f : ParseFrame → ParseFrame) :
    (setFrm st f).warnings = st.warnings := rfl

theorem addWarn_frm (st : PState) (w : Warn) : (addWarn st w).frm = st.frm := rfl

theorem addWarn_toks (st : PState) (w : Warn) : (addWarn st w).toks = st.toks := rfl

theorem addWarn_cur (st : PState) (w : Warn) : (addWarn st w).cur = st.cur := rfl

theorem addWarn_bs (st : PState) (w : Warn) : (addWarn st w).bs = st.bs := rfl

theorem addWarn_warnings (st : PState) (w : Warn) :
    (addWarn st w).warnings = w :: st.warnings := rfl

theorem tgetN_modifyAt_self (f : Chunk → Chunk) (l : List Chunk) (i : Nat)
    (h : i < l.length) : tgetN (listModifyAt i f l) i = f (tgetN l i) := by
  induction l generalizing i with
  | nil => simp at h
  | cons x xs ih =>
    cases i with
    | zero => rfl
    | succ i => simpa [listModifyAt, tgetN] using ih i (by simpa using h)

theorem isCloser_iff (t : E_Token) : isCloser t = true ↔
    (t = .CT_PAREN_CLOSE ∨ t = .CT_BRACE_CLOSE ∨ t = .CT_VBRACE_CLOSE ∨
     t = .CT_ANGLE_CLOSE ∨ t = .CT_MACRO_CLOSE ∨ t = .CT_SQUARE_CLOSE) := by
  simp [isCloser]

theorem isCloser_not_semicolon (c : Chunk) (h : isCloser c.ctype = true) :
    c.IsSemicolon = false := by
  rcases (isCloser_iff _).mp h with h | h | h | h | h | h <;>
    simp [Chunk.IsSemicolon, h]

/-! ### pcu_mark / pcu_sparen_for preservation -/

theorem pcu_mark_frm_stack (st : PState) : (pcu_mark st).frm.stack = st.frm.stack := by
  simp only [pcu_mark]; split <;> rfl

theorem pcu_mark_cur (st : PState) : (pcu_mark st).cur = st.cur := by
  simp only [pcu_mark]; split <;> rfl

theorem pcu_mark_bs (st : PState) : (pcu_mark st).bs = st.bs := by
  simp only [pcu_mark]; split <;> rfl

theorem pcu_mark_warnings (st : PState) : (pcu_mark st).warnings = st.warnings := by
  simp only [pcu_mark]; split <;> rfl

theorem setFrm_toks (st : PState) (f : ParseFrame → ParseFrame) :
    (setFrm st f).toks = st.toks := rfl

theorem pcu_mark_ctype (st : PState) (j : Nat) :
    (tgetN (pcu_mark st).toks j).ctype = (tgetN st.toks j).ctype := by
  simp only [pcu_mark]; split
  · simp only [setFrm_toks, setChunk]
    apply tgetN_modifyAt_comp
    intro c; rfl
  · rfl

theorem pcu_mark_in_preproc (st : PState) (j : Nat) :
    (tgetN (pcu_mark st).toks j).flags.in_preproc =
      (tgetN st.toks j).flags.in_preproc := by
  simp only [pcu_mark]; split
  · simp only [setFrm_toks, setChunk]
    apply tgetN_modifyAt_comp (fun c => c.flags.in_preproc)
    intro c; rfl
  · rfl

theorem pcu_mark_parent (st : PState) (j : Nat) :
    (tgetN (pcu_mark st).toks j).parent_type = (tgetN st.toks j).parent_type := by
  simp only [pcu_mark]; split
  · simp only [setFrm_toks, setChunk]
    apply tgetN_modifyAt_comp (fun c => c.parent_type)
    intro c; rfl
  · rfl

theorem pcu_mark_toks_len (st : PState) : (pcu_mark st).toks.length = st.toks.length := by
  simp only [pcu_mark]; split <;> simp [setFrm, setChunk, listModifyAt_length]

theorem pcu_sparen_for_frm_stack (st : PState) :
    (pcu_sparen_for st).frm.stack = st.frm.stack := by
  simp only [pcu_sparen_for]; split <;> (try rfl) <;> split <;> (try rfl) <;> split <;> rfl

theorem pcu_sparen_for_cur (st : PState) : (pcu_sparen_for st).cur = st.cur := by
  simp only [pcu_sparen_for]; split <;> (try rfl) <;> split <;> (try rfl) <;> split <;> rfl

theorem pcu_sparen_for_bs (st : PState) : (pcu_sparen_for st).bs = st.bs := by
  simp only [pcu_sparen_for]; split <;> (try rfl) <;> split <;> (try rfl) <;> split <;> rfl

theorem pcu_sparen_for_warnings (st : PState) :
    (pcu_sparen_for st).warnings = st.warnings := by
  simp only [pcu_sparen_for]; split <;> (try rfl) <;> split <;> (try rfl) <;> split <;> rfl

theorem pcu_sparen_for_frm_counts (st : PState) :
    (pcu_sparen_for st).frm = st.frm := by
  simp only [pcu_sparen_for]; split <;> (try rfl) <;> split <;> (try rfl) <;> split <;> rfl

theorem pcu_sparen_for_ctype (st : PState) (j : Nat) :
    (tgetN (pcu_sparen_for st).toks j).ctype = (tgetN st.toks j).ctype := by
  simp only [pcu_sparen_for]
  split
  · split <;> split <;>
      (simp only [setChunk_toks, setChunk_cur, setChunk_frm]
       repeat (apply tgetN_modifyAt_peel (fun c => c.ctype) <;> first | (intro c; rfl) | skip)
       rfl)
  · rfl


theorem pcu_sparen_for_in_preproc (st : PState) (j : Nat) :
    (tgetN (pcu_sparen_for st).toks j).flags.in_preproc =
      (tgetN st.toks j).flags.in_preproc := by
  simp only [pcu_sparen_for]
  split
  · split <;> split <;>
      (simp only [setChunk_toks, setChunk_cur, setChunk_frm]
       repeat (apply tgetN_modifyAt_peel (fun c => c.flags.in_preproc) <;> first | (intro c; rfl) | skip)
       rfl)
  · rfl

theorem pcu_sparen_for_toks_len (st : PState) :
    (pcu_sparen_for st).toks.length = st.toks.length := by
  simp only [pcu_sparen_for]
  split
  · split <;> split <;> simp [setChunk, listModifyAt_length]
  · rfl

/-! ### pcu_close_block behaviour on mismatched closers -/

theorem pcu_close_block_pp_mismatch (fuel : Nat) (st : PState)
    (hcl : isCloser (tgetN st.toks st.cur).ctype = true)
    (hpp : (tgetN st.toks st.cur).flags.in_preproc = true)
    (hmm : (tgetN st.toks st.cur).ctype ≠ succTok st.frm.top.etype)
    (hnr : ¬ ((tgetN st.toks st.cur).ctype = .CT_PAREN_CLOSE ∧
              (st.frm.top.etype = .CT_FPAREN_OPEN ∨ st.frm.top.etype = .CT_SPAREN_OPEN))) :
    pcu_close_block fuel st = (st, Except.ok ()) := by
  have hcl' := (isCloser_iff _).mp hcl
  simp only [pcu_close_block]
  rw [if_pos hcl', if_neg hnr, if_pos hmm, if_pos hpp]

theorem pcu_close_block_mismatch_exit (fuel : Nat) (st : PState)
    (hcl : isCloser (tgetN st.toks st.cur).ctype = true)
    (hnp : (tgetN st.toks st.cur).flags.in_preproc = false)
    (hmm : (tgetN st.toks st.cur).ctype ≠ succTok st.frm.top.etype)
    (hnr : ¬ ((tgetN st.toks st.cur).ctype = .CT_PAREN_CLOSE ∧
              (st.frm.top.etype = .CT_FPAREN_OPEN ∨ st.frm.top.etype = .CT_SPAREN_OPEN)))
    (hs1 : st.frm.top.etype ≠ .CT_EOF) (hs2 : st.frm.top.etype ≠ .CT_PP_DEFINE) :
    pcu_close_block fuel st =
      (addWarn (addWarn (addWarn st .closerInfo) .closerExpected) .unexpectedCloser,
       Except.error (Err.exited EXIT_FAILURE)) := by
  have hcl' := (isCloser_iff _).mp hcl
  simp only [pcu_close_block]
  rw [if_pos hcl', if_neg hnr, if_pos hmm, if_neg (by simp [hnp])]
  simp only [addWarn_frm]
  first
    | rw [if_pos hs1]
    | rw [if_pos (show (addWarn st Warn.closerInfo).frm.top.etype ≠ E_Token.CT_EOF from by
            simpa [addWarn_frm] using hs1)]
  simp only [addWarn_frm]
  first
    | rw [if_pos (And.intro hs1 hs2)]
    | rfl

theorem pcu_close_block_pp_mismatch_noexit (fuel : Nat) (st : PState)
    (hcl : isCloser (tgetN st.toks st.cur).ctype = true)
    (hnp : (tgetN st.toks st.cur).flags.in_preproc = false)
    (hmm : (tgetN st.toks st.cur).ctype ≠ succTok st.frm.top.etype)
    (hnr : ¬ ((tgetN st.toks st.cur).ctype = .CT_PAREN_CLOSE ∧
              (st.frm.top.etype = .CT_FPAREN_OPEN ∨ st.frm.top.etype = .CT_SPAREN_OPEN)))
    (hse : st.frm.top.etype = .CT_EOF ∨ st.frm.top.etype = .CT_PP_DEFINE) :
    (pcu_close_block fuel st).2 = Except.ok () ∧
      (pcu_close_block fuel st).1.frm = st.frm ∧
      Warn.closerInfo ∈ (pcu_close_block fuel st).1.warnings := by
  have hcl' := (isCloser_iff _).mp hcl
  simp only [pcu_close_block]
  rw [if_pos hcl', if_neg hnr, if_pos hmm, if_neg (by simp [hnp])]
  simp only [addWarn_frm]
  by_cases he : st.frm.top.etype = .CT_EOF
  · rw [if_neg (by simp [addWarn_frm, he])]
    simp only [addWarn_frm]
    rw [if_neg (by simp [addWarn_frm, he])]
    refine ⟨by trivial, by trivial, ?_⟩
    simp [addWarn_warnings]
  · have hpd : st.frm.top.etype = .CT_PP_DEFINE := by
      rcases hse with h | h
      · exact absurd h he
      · exact h
    first
      | rw [if_pos he]
      | rw [if_pos (show (addWarn st Warn.closerInfo).frm.top.etype ≠ E_Token.CT_EOF from by
              simpa [addWarn_frm] using he)]
    simp only [addWarn_frm]
    rw [if_neg (by simp [addWarn_frm, hpd])]
    refine ⟨by trivial, by trivial, ?_⟩
    simp [addWarn_warnings]

/-! ### Skip lemmas for the parse_cleanup pipeline -/

theorem top_eq_of_stack_eq (f g : ParseFrame) (h : f.stack = g.stack) :
    f.top = g.top := by
  unfold ParseFrame.top; rw [h]

theorem pcu_vbrace_semi_skip_notvb (cfg : Config) (fuel : Nat) (st : PState)
    (h : st.frm.top.etype ≠ .CT_VBRACE_OPEN) :
    pcu_vbrace_semi cfg fuel st = (st, Except.ok ()) := by
  unfold pcu_vbrace_semi
  rw [if_neg h]

theorem pcu_vbrace_semi_skip_vb (cfg : Config) (fuel : Nat) (st : PState)
    (h1 : (tgetN st.toks st.cur).IsSemicolon = false)
    (h2 : ¬ (cfg.lang_pawn = true ∧ (tgetN st.toks st.cur).ctype = E_Token.CT_BRACE_CLOSE))
    (h3 : ¬ (cfg.lang_d = true ∧ (tgetN st.toks st.cur).ctype = E_Token.CT_BRACE_CLOSE)) :
    pcu_vbrace_semi cfg fuel st = (st, Except.ok ()) := by
  unfold pcu_vbrace_semi
  split
  · rw [if_neg (by simp [h1]), if_neg h2, if_neg h3]
  · rfl

theorem pcu_wod_semi_skip (fuel : Nat) (st : PState)
    (h : st.frm.top.stage ≠ BraceStage.WOD_SEMI) :
    pcu_wod_semi fuel st = (st, Except.ok ()) := by
  unfold pcu_wod_semi
  rw [if_neg h]

/-- Unfolding of parse_cleanup when the top entry has no stage: the
complex-statement machine is bypassed. -/
theorem parse_cleanup_no_stage (fuel : Nat) (cfg : Config) (st : PState)
    (hst : (pcu_sparen_for (pcu_mark st)).frm.top.stage = BraceStage.NONE) :
    parse_cleanup fuel cfg st =
      mbind (pcu_vbrace_semi cfg fuel (pcu_sparen_for (pcu_mark st))) (fun st _ =>
        mbind (pcu_close_block fuel st) (fun st _ =>
          mbind (pcu_wod_semi fuel st) (fun st _ =>
            (pcu_open_tail cfg st, Except.ok ())))) := by
  simp only [parse_cleanup]
  rw [if_neg (by simp [hst])]

theorem IsSemicolon_eq_of_ctype (c d : Chunk) (h : c.ctype = d.ctype) :
    c.IsSemicolon = d.IsSemicolon := by
  unfold Chunk.IsSemicolon; rw [h]

/-! ### C3 -/

/-- C3: a closer chunk flagged IN_PREPROC that does not match the pairing
of the parse-frame stack top (after the paren-close reclassification,
which cannot apply on a genuine mismatch) is accepted silently by the
closer-handling step of parse_cleanup: no warning, no pop, no exit — the
whole state passes through unchanged, so the frame's level, brace level
and stack contents are untouched. -/
theorem c3_preproc_mismatch_accepted (fuel : Nat) (st : PState)
    (hcl : isCloser (tgetN st.toks st.cur).ctype = true)
    (hpp : (tgetN st.toks st.cur).flags.in_preproc = true)
    (hmm : (tgetN st.toks st.cur).ctype ≠ succTok st.frm.top.etype)
    (hnr : ¬ ((tgetN st.toks st.cur).ctype = E_Token.CT_PAREN_CLOSE ∧
              (st.frm.top.etype = E_Token.CT_FPAREN_OPEN ∨
               st.frm.top.etype = E_Token.CT_SPAREN_OPEN))) :
    pcu_close_block fuel st = (st, Except.ok ()) :=
  pcu_close_block_pp_mismatch fuel st hcl hpp hmm hnr

theorem c3_witness :
    isCloser (tgetN stMismatchPp.toks stMismatchPp.cur).ctype = true ∧
    (tgetN stMismatchPp.toks stMismatchPp.cur).flags.in_preproc = true ∧
    (pcu_close_block 5 stMismatchPp).1 = stMismatchPp :=
  ⟨by decide, by decide, by
    rw [c3_preproc_mismatch_accepted 5 stMismatchPp (by decide) (by decide)
      (by decide) (by decide)]⟩

/-! ### C9 -/

/-- C9: a mismatched closer not flagged IN_PREPROC does not abort when the
parse-frame top is the EOF or PP_DEFINE sentinel: a warning is logged, no
entry is popped (the frame is unchanged) and processing continues; the
abort (with `EXIT_FAILURE`) happens exactly when a real, non-sentinel
entry is on top. -/
theorem c9_sentinel_mismatch (fuel : Nat) (st : PState)
    (hcl : isCloser (tgetN st.toks st.cur).ctype = true)
    (hnp : (tgetN st.toks st.cur).flags.in_preproc = false)
    (hmm : (tgetN st.toks st.cur).ctype ≠ succTok st.frm.top.etype)
    (hnr : ¬ ((tgetN st.toks st.cur).ctype = E_Token.CT_PAREN_CLOSE ∧
              (st.frm.top.etype = E_Token.CT_FPAREN_OPEN ∨
               st.frm.top.etype = E_Token.CT_SPAREN_OPEN))) :
    (st.frm.top.etype = .CT_EOF ∨ st.frm.top.etype = .CT_PP_DEFINE →
      (pcu_close_block fuel st).2 = Except.ok () ∧
      (pcu_close_block fuel st).1.frm = st.frm ∧
      Warn.closerInfo ∈ (pcu_close_block fuel st).1.warnings) ∧
    (st.frm.top.etype ≠ .CT_EOF → st.frm.top.etype ≠ .CT_PP_DEFINE →
      (pcu_close_block fuel st).2 = Except.error (Err.exited EXIT_FAILURE)) :=
  ⟨fun hse => pcu_close_block_pp_mismatch_noexit fuel st hcl hnp hmm hnr hse,
   fun h1 h2 => by
     rw [pcu_close_block_mismatch_exit fuel st hcl hnp hmm hnr h1 h2]⟩

theorem c9_witness :
    isCloser (tgetN stMismatchEof.toks stMismatchEof.cur).ctype = true ∧
    stMismatchEof.frm.top.etype = .CT_EOF ∧
    (pcu_close_block 5 stMismatchEof).2 = Except.ok () ∧
    (pcu_close_block 5 stMismatchEof).1.frm = stMismatchEof.frm ∧
    Warn.closerInfo ∈ (pcu_close_block 5 stMismatchEof).1.warnings := by
  refine ⟨by decide, by decide, ?_⟩
  have h := (c9_sentinel_mismatch 5 stMismatchEof (by decide) (by decide)
    (by decide) (by decide)).1 (Or.inl (by decide))
  exact h

/-! ### C1 -/

/-- C1 counterexample: at a concrete mismatched closer over a real opener
(top of stack `(`, current chunk `\x7d`, no preprocessor), the pass
terminates with `exit(EXIT_FAILURE)` — exit code 1 — not with the claimed
code 70 (`EX_SOFTWARE`). -/
theorem c1_counterexample :
    exitCodeOf (parse_cleanup 5 cfgC stMismatch).2 = some EXIT_FAILURE ∧
    exitCodeOf (parse_cleanup 5 cfgC stMismatch).2 ≠ some EX_SOFTWARE ∧
    Warn.unexpectedCloser ∈ (parse_cleanup 5 cfgC stMismatch).1.warnings := by
  decide

/-- C1 (amended): for every closer chunk not flagged IN_PREPROC whose type
does not match the pairing of the parse-frame top, when the mismatch check
is reached (no pending complex-statement stage on top, and not the Pawn/D
virtual-brace special case) and the top entry is a real opener — neither
the EOF sentinel nor the PP_DEFINE sentinel — the pass emits a warning and
terminates the process with exit code `EXIT_FAILURE` (1), not 70. -/
theorem c1_mismatch_exits_failure (fuel : Nat) (cfg : Config) (st : PState)
    (hcl : isCloser (tgetN st.toks st.cur).ctype = true)
    (hnp : (tgetN st.toks st.cur).flags.in_preproc = false)
    (hmm : (tgetN st.toks st.cur).ctype ≠ succTok st.frm.top.etype)
    (hnr : ¬ ((tgetN st.toks st.cur).ctype = E_Token.CT_PAREN_CLOSE ∧
              (st.frm.top.etype = E_Token.CT_FPAREN_OPEN ∨
               st.frm.top.etype = E_Token.CT_SPAREN_OPEN)))
    (hst : st.frm.top.stage = BraceStage.NONE)
    (hs1 : st.frm.top.etype ≠ .CT_EOF) (hs2 : st.frm.top.etype ≠ .CT_PP_DEFINE)
    (hvd : ¬ ((cfg.lang_pawn = true ∨ cfg.lang_d = true) ∧
              st.frm.top.etype = .CT_VBRACE_OPEN ∧
              (tgetN st.toks st.cur).ctype = E_Token.CT_BRACE_CLOSE)) :
    (parse_cleanup fuel cfg st).2 = Except.error (Err.exited EXIT_FAILURE) ∧
      Warn.unexpectedCloser ∈ (parse_cleanup fuel cfg st).1.warnings := by
  have hfrm2 : (pcu_sparen_for (pcu_mark st)).frm.stack = st.frm.stack := by
    rw [pcu_sparen_for_frm_counts, pcu_mark_frm_stack]
  have htop2 : (pcu_sparen_for (pcu_mark st)).frm.top = st.frm.top := by
    unfold ParseFrame.top; rw [hfrm2]
  have hcur2 : (pcu_sparen_for (pcu_mark st)).cur = st.cur := by
    rw [pcu_sparen_for_cur, pcu_mark_cur]
  have hct2 : (tgetN (pcu_sparen_for (pcu_mark st)).toks
      (pcu_sparen_for (pcu_mark st)).cur).ctype = (tgetN st.toks st.cur).ctype := by
    rw [hcur2, pcu_sparen_for_ctype, pcu_mark_ctype]
  have hip2 : (tgetN (pcu_sparen_for (pcu_mark st)).toks
      (pcu_sparen_for (pcu_mark st)).cur).flags.in_preproc =
      (tgetN st.toks st.cur).flags.in_preproc := by
    rw [hcur2, pcu_sparen_for_in_preproc, pcu_mark_in_preproc]
  have hsem : (tgetN (pcu_sparen_for (pcu_mark st)).toks
      (pcu_sparen_for (pcu_mark st)).cur).IsSemicolon = false :=
    (IsSemicolon_eq_of_ctype _ _ hct2).trans
      (isCloser_not_semicolon _ hcl)
  rw [parse_cleanup_no_stage fuel cfg st (by rw [htop2, hst])]
  have hvs : pcu_vbrace_semi cfg fuel (pcu_sparen_for (pcu_mark st)) =
      (pcu_sparen_for (pcu_mark st), Except.ok ()) := by
    by_cases hvb : (pcu_sparen_for (pcu_mark st)).frm.top.etype = .CT_VBRACE_OPEN
    · exact pcu_vbrace_semi_skip_vb cfg fuel _ hsem
        (fun hc => hvd ⟨Or.inl hc.1, by rwa [htop2] at hvb, hct2.symm.trans hc.2⟩)
        (fun hc => hvd ⟨Or.inr hc.1, by rwa [htop2] at hvb, hct2.symm.trans hc.2⟩)
    · exact pcu_vbrace_semi_skip_notvb cfg fuel _ hvb
  rw [hvs, mbind_ok]
  rw [pcu_close_block_mismatch_exit fuel _ (by rw [hct2]; exact hcl)
    (by rw [hip2]; exact hnp)
    (by rw [hct2, htop2]; exact hmm)
    (by rw [hct2, htop2]; exact hnr)
    (by rw [htop2]; exact hs1)
    (by rw [htop2]; exact hs2), mbind_error]
  exact ⟨rfl, by simp [addWarn_warnings]⟩

theorem c1_witness :
    isCloser (tgetN stMismatch.toks stMismatch.cur).ctype = true ∧
    stMismatch.frm.top.etype ≠ .CT_EOF ∧
    (parse_cleanup 5 cfgC stMismatch).2 = Except.error (Err.exited EXIT_FAILURE) ∧
    Warn.unexpectedCloser ∈ (parse_cleanup 5 cfgC stMismatch).1.warnings := by
  refine ⟨by decide, by decide, ?_⟩
  exact c1_mismatch_exits_failure 5 cfgC stMismatch (by decide) (by decide)
    (by decide) (by decide) (by decide) (by decide) (by decide) (by decide)

/-! ### check_complex_statements helpers -/

theorem ccs_else_loop_skip (fuel : Nat) (st : PState)
    (h : st.frm.top.stage ≠ BraceStage.ELSE) :
    ccs_else_loop fuel st = (st, Except.ok none) := by
  unfold ccs_else_loop; rw [if_neg h]

theorem ccs_catch_loop_skip (cfg : Config) (fuel : Nat) (st : PState)
    (h : st.frm.top.stage ≠ BraceStage.CATCH) :
    ccs_catch_loop cfg fuel st = (st, Except.ok none) := by
  unfold ccs_catch_loop; rw [if_neg h]

theorem ccs_vbrace_insert_skip (cfg : Config) (st : PState)
    (h2 : st.frm.top.stage ≠ BraceStage.BRACE2)
    (h3 : st.frm.top.stage ≠ BraceStage.BRACE_DO) :
    ccs_vbrace_insert cfg st = st := by
  unfold ccs_vbrace_insert
  rw [if_neg ?_]
  rintro ⟨-, -, h⟩
  rcases h with h | h
  · exact h2 h
  · exact h3 h

theorem ccs_tail_paren1_exit (st : PState)
    (hst : st.frm.top.stage = BraceStage.PAREN1)
    (hpo : (tgetN st.toks st.cur).ctype ≠ .CT_PAREN_OPEN)
    (hcex : ¬ ((st.frm.top.etype = .CT_IF ∨ st.frm.top.etype = .CT_ELSEIF) ∧
               (tgetN st.toks st.cur).ctype = .CT_CONSTEXPR)) :
    ccs_tail st =
      (setFrm (addWarn st Warn.expectedParen) ParseFrame.pop,
       Except.error (Err.exited EX_SOFTWARE)) := by
  unfold ccs_tail
  rw [if_neg ?_, if_pos ⟨hpo, Or.inl hst⟩]
  rintro ⟨-, hio, hcx⟩
  exact hcex ⟨hio, hcx⟩

theorem ccs_paren1_exit (fuel : Nat) (cfg : Config) (st : PState)
    (hst : st.frm.top.stage = BraceStage.PAREN1)
    (hpo : (tgetN st.toks st.cur).ctype ≠ .CT_PAREN_OPEN)
    (hcex : ¬ ((st.frm.top.etype = .CT_IF ∨ st.frm.top.etype = .CT_ELSEIF) ∧
               (tgetN st.toks st.cur).ctype = .CT_CONSTEXPR)) :
    check_complex_statements fuel cfg st =
      (setFrm (addWarn st Warn.expectedParen) ParseFrame.pop,
       Except.error (Err.exited EX_SOFTWARE)) := by
  simp only [check_complex_statements]
  rw [if_neg (by simp [hst])]
  simp only [ccs_else_loop_skip fuel st (by simp [hst])]
  rw [if_neg (by simp [hst]), if_neg (by simp [hst])]
  simp only [ccs_catch_loop_skip cfg fuel st (by simp [hst])]
  rw [if_neg (by simp [hst]), if_neg (by simp [hst]), if_neg (by simp [hst]),
      if_neg (by simp [hst])]
  rw [ccs_vbrace_insert_skip cfg st (by simp [hst]) (by simp [hst])]
  exact ccs_tail_paren1_exit st hst hpo hcex

theorem pop_stack_of_len (f : ParseFrame) (h : 2 ≤ f.stack.length) :
    (ParseFrame.pop f).stack = f.stack.tail := by
  simp only [ParseFrame.pop]
  rw [if_neg (by omega)]

/-! ### C4 -/

/-- C4 counterexample: with the top entry `IF` in stage PAREN1 and the
current chunk `constexpr` (which is not `(`), the pass does not abort and
does not pop: check_complex_statements leaves the state untouched and
returns false. -/
theorem c4_counterexample :
    exitCodeOf (check_complex_statements 5 cfgC stConstexpr).2 = none ∧
    (check_complex_statements 5 cfgC stConstexpr).1 = stConstexpr ∧
    stConstexpr.frm.top.stage = BraceStage.PAREN1 ∧
    (tgetN stConstexpr.toks stConstexpr.cur).ctype ≠ .CT_PAREN_OPEN := by
  decide

/-- C4 (amended): whenever the top stack entry's stage is PAREN1 and the
current significant chunk is not a PAREN_OPEN — and not the `constexpr`
exception after an IF/ELSEIF entry (and not CT_AUTORELEASEPOOL, which
bypasses the state machine) — the pass emits the "Expected '('" warning,
pops the complex-statement entry, and aborts the process with
`EX_SOFTWARE` (70). -/
theorem c4_paren1_aborts (fuel : Nat) (cfg : Config) (st : PState)
    (hst : st.frm.top.stage = BraceStage.PAREN1)
    (hpo : (tgetN st.toks st.cur).ctype ≠ .CT_PAREN_OPEN)
    (harp : (tgetN st.toks st.cur).ctype ≠ .CT_AUTORELEASEPOOL)
    (hcex : ¬ ((st.frm.top.etype = .CT_IF ∨ st.frm.top.etype = .CT_ELSEIF) ∧
               (tgetN st.toks st.cur).ctype = .CT_CONSTEXPR))
    (hlen : 2 ≤ st.frm.stack.length) :
    (parse_cleanup fuel cfg st).2 = Except.error (Err.exited EX_SOFTWARE) ∧
    Warn.expectedParen ∈ (parse_cleanup fuel cfg st).1.warnings ∧
    (parse_cleanup fuel cfg st).1.frm.stack = st.frm.stack.tail := by
  have hfrm2 : (pcu_sparen_for (pcu_mark st)).frm.stack = st.frm.stack := by
    rw [pcu_sparen_for_frm_counts, pcu_mark_frm_stack]
  have htop2 : (pcu_sparen_for (pcu_mark st)).frm.top = st.frm.top := by
    unfold ParseFrame.top; rw [hfrm2]
  have hcur2 : (pcu_sparen_for (pcu_mark st)).cur = st.cur := by
    rw [pcu_sparen_for_cur, pcu_mark_cur]
  have hct2 : (tgetN (pcu_sparen_for (pcu_mark st)).toks
      (pcu_sparen_for (pcu_mark st)).cur).ctype = (tgetN st.toks st.cur).ctype := by
    rw [hcur2, pcu_sparen_for_ctype, pcu_mark_ctype]
  have hwarn2 : (pcu_sparen_for (pcu_mark st)).warnings = st.warnings := by
    rw [pcu_sparen_for_warnings, pcu_mark_warnings]
  simp only [parse_cleanup]
  rw [if_pos ⟨by rw [htop2, hst]; simp, by rw [hct2]; exact harp⟩]
  simp only [ccs_paren1_exit fuel cfg (pcu_sparen_for (pcu_mark st))
    (by rw [htop2]; exact hst) (by rw [hct2]; exact hpo)
    (by rw [htop2, hct2]; exact hcex)]
  refine ⟨by trivial, ?_, ?_⟩
  · simp [setFrm_warnings, addWarn_warnings]
  · simp only [setFrm_frm, addWarn_frm]
    rw [pop_stack_of_len _ (by rw [hfrm2]; exact hlen), hfrm2]

theorem c4_witness :
    stParen1Semi.frm.top.stage = BraceStage.PAREN1 ∧
    (tgetN stParen1Semi.toks stParen1Semi.cur).ctype ≠ .CT_PAREN_OPEN ∧
    (parse_cleanup 5 cfgC stParen1Semi).2 = Except.error (Err.exited EX_SOFTWARE) ∧
    Warn.expectedParen ∈ (parse_cleanup 5 cfgC stParen1Semi).1.warnings ∧
    (parse_cleanup 5 cfgC stParen1Semi).1.frm.stack = stParen1Semi.frm.stack.tail := by
  refine ⟨by decide, by decide, ?_, ?_, ?_⟩ <;>
    first
      | exact (c4_paren1_aborts 5 cfgC stParen1Semi (by decide) (by decide)
          (by decide) (by decide) (by decide)).1
      | exact (c4_paren1_aborts 5 cfgC stParen1Semi (by decide) (by decide)
          (by decide) (by decide) (by decide)).2.1
      | exact (c4_paren1_aborts 5 cfgC stParen1Semi (by decide) (by decide)
          (by decide) (by decide) (by decide)).2.2

/-! ### C2 helpers: insert_vbrace on a plain anchor -/

theorem vbraceRewind_stop (toks : List Chunk) (k : Nat)
    (h : (tgetN toks k).IsCommentOrNewline = false) :
    vbraceRewind k toks = (toks, some k) := by
  cases k <;> (unfold vbraceRewind; rw [if_neg (by simp [h])])

theorem insert_vbrace_open_simple (st : PState) (h0 : st.cur ≠ 0)
    (hprevC : (tgetN st.toks (st.cur - 1)).IsCommentOrNewline = false)
    (hprevP : (tgetN st.toks (st.cur - 1)).flags.in_preproc = false)
    (hpcP : (tgetN st.toks st.cur).flags.in_preproc = false) :
    insert_vbrace st (some st.cur) false =
      (st.insertChunk st.cur (vbChunkAt st (st.cur - 1)), some st.cur) := by
  have hic : (tgetN st.toks (st.cur - 1)).IsComment = false := by
    unfold Chunk.IsComment
    unfold Chunk.IsCommentOrNewline at hprevC
    simp only [decide_eq_false_iff_not] at hprevC ⊢
    intro h; exact hprevC (Or.inl h)
  have hnotA : ¬ (¬ (tgetN st.toks st.cur).flags.in_preproc = true ∧
      (tgetN st.toks (st.cur - 1)).flags.in_preproc = true) := by
    rintro ⟨-, h2⟩
    rw [hprevP] at h2
    exact Bool.false_ne_true h2
  have hsucc : st.cur - 1 + 1 = st.cur := by omega
  simp only [insert_vbrace]
  rw [if_neg (by simp)]
  rw [if_neg h0]
  rw [if_pos (by simp [hprevP])]
  rw [vbraceRewind_stop st.toks (st.cur - 1) hprevC]
  simp only [hic]
  rw [if_neg hnotA]
  rw [if_neg (show ¬ (false = true) by simp)]
  unfold vbChunkAt
  split
  · rename_i heq; cases heq
  · rename_i rf heq
    injection heq with h
    subst h
    rw [hsucc]

/-! ### List insertion lemmas -/

theorem listInsertAt_length {α : Type} (j : Nat) (c : α) (l : List α) :
    (listInsertAt j c l).length = l.length + 1 := by
  induction l generalizing j with
  | nil => cases j <;> rfl
  | cons x xs ih => cases j <;> simp [listInsertAt, ih]

theorem tgetN_insertAt_self (j : Nat) (c : Chunk) (l : List Chunk)
    (h : j ≤ l.length) : tgetN (listInsertAt j c l) j = c := by
  induction l generalizing j with
  | nil =>
    cases j with
    | zero => rfl
    | succ j => simp at h
  | cons x xs ih =>
    cases j with
    | zero => rfl
    | succ j => simpa [listInsertAt, tgetN] using ih j (by simpa using h)

theorem tgetN_insertAt_after (j k : Nat) (c : Chunk) (l : List Chunk)
    (h : j ≤ k) : tgetN (listInsertAt j c l) (k + 1) = tgetN l k := by
  induction l generalizing j k with
  | nil =>
    cases j with
    | zero => cases k <;> rfl
    | succ j => cases k <;> rfl
  | cons x xs ih =>
    cases j with
    | zero => rfl
    | succ j =>
      cases k with
      | zero => omega
      | succ k => simpa [listInsertAt, tgetN] using ih j k (by omega)

/-! ### C2 -/

theorem ccs_tail_none (st : PState) (h : st.frm.top.stage = BraceStage.NONE) :
    ccs_tail st = (st, Except.ok false) := by
  simp only [ccs_tail]
  rw [if_neg (by simp [h]), if_neg (by simp [h])]

/-- C2 counterexample: a C# `using` statement (with `indent_using_block`
off) meets a BRACE_DO stage as a non-BRACE_OPEN, non-preproc chunk, yet no
virtual brace is inserted: check_complex_statements leaves the state
untouched. -/
theorem c2_counterexample :
    stUsingCS.frm.top.stage = BraceStage.BRACE_DO ∧
    (tgetN stUsingCS.toks stUsingCS.cur).ctype ≠ .CT_BRACE_OPEN ∧
    (tgetN stUsingCS.toks stUsingCS.cur).flags.in_preproc = false ∧
    (check_complex_statements 5 cfgCS stUsingCS).1 = stUsingCS ∧
    exitCodeOf (check_complex_statements 5 cfgCS stUsingCS).2 = none := by
  decide

/-- C2 (amended): whenever the top stack entry's stage is BRACE2 or
BRACE_DO and the current chunk is not a BRACE_OPEN and not flagged
IN_PREPROC — and not the C# `using`-statement exception with
`indent_using_block` off — and the anchor before the current chunk is a
plain (non-comment, non-newline, non-preproc) chunk, the pass inserts a
VBRACE_OPEN before the current chunk (parented to the complex statement's
type), increments level and brace_level, pushes a VBRACE_OPEN entry
carrying the complex statement's type as parent, and the original chunk is
re-processed inside the virtual block: its level/brace_level take the
incremented values and it is marked STMT_START and EXPR_START. -/
theorem c2_vbrace_inserted (fuel : Nat) (cfg : Config) (st : PState)
    (hbo : (tgetN st.toks st.cur).ctype ≠ .CT_BRACE_OPEN)
    (hnp : (tgetN st.toks st.cur).flags.in_preproc = false)
    (hst : st.frm.top.stage = BraceStage.BRACE2 ∨
           st.frm.top.stage = BraceStage.BRACE_DO)
    (hcs : ¬ (cfg.lang_cs = true ∧
              (tgetN st.toks st.cur).ctype = .CT_USING_STMT ∧
              ¬ cfg.indent_using_block = true))
    (h0 : st.cur ≠ 0)
    (hcur : st.cur < st.toks.length)
    (hprevC : (tgetN st.toks (st.cur - 1)).IsCommentOrNewline = false)
    (hprevP : (tgetN st.toks (st.cur - 1)).flags.in_preproc = false) :
    (check_complex_statements fuel cfg st).2 = Except.ok false ∧
    (check_complex_statements fuel cfg st).1.toks.length = st.toks.length + 1 ∧
    (tgetN (check_complex_statements fuel cfg st).1.toks st.cur).ctype = .CT_VBRACE_OPEN ∧
    (tgetN (check_complex_statements fuel cfg st).1.toks st.cur).parent_type = st.frm.top.etype ∧
    (check_complex_statements fuel cfg st).1.frm.level = st.frm.level + 1 ∧
    (check_complex_statements fuel cfg st).1.frm.brace_level = st.frm.brace_level + 1 ∧
    (check_complex_statements fuel cfg st).1.frm.top.etype = .CT_VBRACE_OPEN ∧
    (check_complex_statements fuel cfg st).1.frm.top.parent = st.frm.top.etype ∧
    (check_complex_statements fuel cfg st).1.frm.top.stage = BraceStage.NONE ∧
    (check_complex_statements fuel cfg st).1.frm.stack.length = st.frm.stack.length + 1 ∧
    (check_complex_statements fuel cfg st).1.cur = st.cur + 1 ∧
    (tgetN (check_complex_statements fuel cfg st).1.toks (st.cur + 1)).ctype =
      (tgetN st.toks st.cur).ctype ∧
    (tgetN (check_complex_statements fuel cfg st).1.toks (st.cur + 1)).level = st.frm.level + 1 ∧
    (tgetN (check_complex_statements fuel cfg st).1.toks (st.cur + 1)).brace_level =
      st.frm.brace_level + 1 ∧
    (tgetN (check_complex_statements fuel cfg st).1.toks (st.cur + 1)).flags.stmt_start = true ∧
    (tgetN (check_complex_statements fuel cfg st).1.toks (st.cur + 1)).flags.expr_start = true := by
  have hccs : check_complex_statements fuel cfg st =
      ccs_tail (ccs_vbrace_insert cfg st) := by
    rcases hst with hst | hst <;>
      (simp only [check_complex_statements]
       rw [if_neg (by simp [hst])]
       simp only [ccs_else_loop_skip fuel st (by simp [hst])]
       rw [if_neg (by simp [hst]), if_neg (by simp [hst])]
       simp only [ccs_catch_loop_skip cfg fuel st (by simp [hst])]
       rw [if_neg (by simp [hst]), if_neg (by simp [hst]), if_neg (by simp [hst]),
           if_neg (by simp [hst])])
  have hstage : (ccs_vbrace_insert cfg st).frm.top.stage = BraceStage.NONE := by
    simp only [ccs_vbrace_insert]
    rw [if_pos ⟨hbo, by simp [hnp], hst⟩, if_neg hcs]
    simp only [insert_vbrace_open_simple st h0 hprevC hprevP hnp]
    simp [setFrm_frm, setChunk_frm, PState.insertChunk, ParseFrame.pushC,
      ParseFrame.setTopParent, ParseFrame.setTop, ParseFrame.top,
      ParseFrame.shiftIdx]
  have hT : ccs_tail (ccs_vbrace_insert cfg st) =
      (ccs_vbrace_insert cfg st, Except.ok false) := ccs_tail_none _ hstage
  rw [hccs, hT]
  simp only [ccs_vbrace_insert]
  rw [if_pos ⟨hbo, by simp [hnp], hst⟩, if_neg hcs]
  simp only [insert_vbrace_open_simple st h0 hprevC hprevP hnp]
  simp only [setFrm_toks, setFrm_frm, setFrm_cur, setChunk_toks, setChunk_frm,
    setChunk_cur, PState.insertChunk]
  rw [if_pos (Nat.le_refl st.cur)]
  refine ⟨by trivial, ?_, ?_, ?_, ?_, ?_, ?_, ?_, ?_, ?_, ?_, ?_, ?_, ?_, ?_, ?_⟩
  · simp only [listModifyAt_length, listInsertAt_length]
  · apply tgetN_modifyAt_peel (fun c => c.ctype) <;> first | (intro c; rfl) | skip
    apply tgetN_modifyAt_peel (fun c => c.ctype) <;> first | (intro c; rfl) | skip
    apply tgetN_modifyAt_peel (fun c => c.ctype) <;> first | (intro c; rfl) | skip
    rw [tgetN_insertAt_self _ _ _ (Nat.le_of_lt hcur)]
    rfl
  · apply tgetN_modifyAt_peel (fun c => c.parent_type) <;> first | (intro c; rfl) | skip
    apply tgetN_modifyAt_peel (fun c => c.parent_type) <;> first | (intro c; rfl) | skip
    rw [tgetN_modifyAt_self _ _ _ (by rw [listInsertAt_length]; omega),
        tgetN_insertAt_self _ _ _ (Nat.le_of_lt hcur)]
  · simp [ParseFrame.pushC, ParseFrame.setTopParent, ParseFrame.setTop,
      ParseFrame.shiftIdx]
  · simp [ParseFrame.pushC, ParseFrame.setTopParent, ParseFrame.setTop,
      ParseFrame.shiftIdx]
  · simp only [ParseFrame.pushC, ParseFrame.setTopParent, ParseFrame.setTop,
      ParseFrame.top, ParseFrame.shiftIdx, List.headD_cons, tgetO]
    apply tgetN_modifyAt_peel (fun c => c.ctype) <;> first | (intro c; rfl) | skip
    rw [tgetN_insertAt_self _ _ _ (Nat.le_of_lt hcur)]
    rfl
  · simp [ParseFrame.pushC, ParseFrame.setTopParent, ParseFrame.setTop,
      ParseFrame.top, ParseFrame.shiftIdx]
  · simp [ParseFrame.pushC, ParseFrame.setTopParent, ParseFrame.setTop,
      ParseFrame.top, ParseFrame.shiftIdx]
  · simp [ParseFrame.pushC, ParseFrame.setTopParent, ParseFrame.setTop,
      ParseFrame.shiftIdx]
  · rfl
  · apply tgetN_modifyAt_peel (fun c => c.ctype) <;> first | (intro c; rfl) | skip
    apply tgetN_modifyAt_peel (fun c => c.ctype) <;> first | (intro c; rfl) | skip
    apply tgetN_modifyAt_peel (fun c => c.ctype) <;> first | (intro c; rfl) | skip
    rw [tgetN_insertAt_after _ _ _ _ (Nat.le_refl st.cur)]
  · apply tgetN_modifyAt_peel (fun c => c.level) <;> first | (intro c; rfl) | skip
    rw [tgetN_modifyAt_self _ _ _
      (by rw [listModifyAt_length, listInsertAt_length]; omega)]
    simp [ParseFrame.pushC, ParseFrame.setTopParent, ParseFrame.setTop,
      ParseFrame.shiftIdx]
  · apply tgetN_modifyAt_peel (fun c => c.brace_level) <;> first | (intro c; rfl) | skip
    rw [tgetN_modifyAt_self _ _ _
      (by rw [listModifyAt_length, listInsertAt_length]; omega)]
    simp [ParseFrame.pushC, ParseFrame.setTopParent, ParseFrame.setTop,
      ParseFrame.shiftIdx]
  · rw [tgetN_modifyAt_self _ _ _
      (by rw [listModifyAt_length, listModifyAt_length, listInsertAt_length]; omega)]
  · rw [tgetN_modifyAt_self _ _ _
      (by rw [listModifyAt_length, listModifyAt_length, listInsertAt_length]; omega)]

theorem c2_witness :
    (check_complex_statements 5 cfgC stIfBody).2 = Except.ok false ∧
    (check_complex_statements 5 cfgC stIfBody).1.toks.length = stIfBody.toks.length + 1 ∧
    (tgetN (check_complex_statements 5 cfgC stIfBody).1.toks stIfBody.cur).ctype = .CT_VBRACE_OPEN ∧
    (tgetN (check_complex_statements 5 cfgC stIfBody).1.toks stIfBody.cur).parent_type = stIfBody.frm.top.etype ∧
    (check_complex_statements 5 cfgC stIfBody).1.frm.level = stIfBody.frm.level + 1 ∧
    (check_complex_statements 5 cfgC stIfBody).1.frm.brace_level = stIfBody.frm.brace_level + 1 ∧
    (check_complex_statements 5 cfgC stIfBody).1.frm.top.etype = .CT_VBRACE_OPEN ∧
    (check_complex_statements 5 cfgC stIfBody).1.frm.top.parent = stIfBody.frm.top.etype ∧
    (check_complex_statements 5 cfgC stIfBody).1.frm.top.stage = BraceStage.NONE ∧
    (check_complex_statements 5 cfgC stIfBody).1.frm.stack.length = stIfBody.frm.stack.length + 1 ∧
    (check_complex_statements 5 cfgC stIfBody).1.cur = stIfBody.cur + 1 ∧
    (tgetN (check_complex_statements 5 cfgC stIfBody).1.toks (stIfBody.cur + 1)).ctype =
      (tgetN stIfBody.toks stIfBody.cur).ctype ∧
    (tgetN (check_complex_statements 5 cfgC stIfBody).1.toks (stIfBody.cur + 1)).level = stIfBody.frm.level + 1 ∧
    (tgetN (check_complex_statements 5 cfgC stIfBody).1.toks (stIfBody.cur + 1)).brace_level =
      stIfBody.frm.brace_level + 1 ∧
    (tgetN (check_complex_statements 5 cfgC stIfBody).1.toks (stIfBody.cur + 1)).flags.stmt_start = true ∧
    (tgetN (check_complex_statements 5 cfgC stIfBody).1.toks (stIfBody.cur + 1)).flags.expr_start = true :=
  c2_vbrace_inserted 5 cfgC stIfBody (by decide) (by decide) (by decide)
    (by decide) (by decide) (by decide) (by decide) (by decide)

/-! ### C5 -/

/-- C5 counterexample: when the `(` of a `for` is processed, a FOR
complex-statement entry is on the stack, yet the chunk is not given the
IN_FOR flag (the marking is gated on `sparen_count > 0`, which is still 0
at that moment). -/
theorem c5_counterexample :
    stForParen.frm.stack.any (fun e => e.etype = .CT_FOR) = true ∧
    exitCodeOf (parse_cleanup 10 cfgC stForParen).2 = none ∧
    (tgetN (parse_cleanup 10 cfgC stForParen).1.toks stForParen.cur).flags.in_for = false ∧
    (tgetN (parse_cleanup 10 cfgC stForParen).1.toks stForParen.cur).flags.in_sparen = false := by
  decide

/-- C5 (amended): at the flag-marking step of parse_cleanup, the current
chunk gains IN_SPAREN iff `sparen_count > 0` (an SPAREN_OPEN ancestor
opener is on the stack), and gains IN_FOR iff `sparen_count > 0` and some
stack entry other than the top is a FOR entry; with `sparen_count = 0`
both flags are left unchanged even if a FOR entry is on the stack. -/
theorem c5_sparen_for_flags (st : PState) (hcur : st.cur < st.toks.length) :
    (tgetN (pcu_sparen_for st).toks st.cur).flags.in_sparen =
      ((tgetN st.toks st.cur).flags.in_sparen || decide (st.frm.sparen_count > 0)) ∧
    (tgetN (pcu_sparen_for st).toks st.cur).flags.in_for =
      ((tgetN st.toks st.cur).flags.in_for ||
        (decide (st.frm.sparen_count > 0) &&
         st.frm.stack.tail.any (fun e => e.etype = .CT_FOR))) := by
  by_cases hsp : st.frm.sparen_count > 0
  · simp only [pcu_sparen_for]
    rw [if_pos hsp]
    simp only [setChunk_frm, setChunk_cur, setChunk_toks]
    by_cases hfor : st.frm.stack.tail.any (fun e => e.etype = .CT_FOR) = true
    · rw [if_pos hfor]
      constructor
      · split
        · simp only [setChunk_toks, setChunk_cur]
          apply tgetN_modifyAt_peel (fun c => c.flags.in_sparen) <;> first | (intro c; rfl) | skip
          apply tgetN_modifyAt_peel (fun c => c.flags.in_sparen) <;> first | (intro c; rfl) | skip
          rw [tgetN_modifyAt_self _ _ _ hcur]
          simp [hsp]
        · simp only [setChunk_toks, setChunk_cur]
          apply tgetN_modifyAt_peel (fun c => c.flags.in_sparen) <;> first | (intro c; rfl) | skip
          rw [tgetN_modifyAt_self _ _ _ hcur]
          simp [hsp]
      · split
        · simp only [setChunk_toks, setChunk_cur]
          apply tgetN_modifyAt_peel (fun c => c.flags.in_for) <;> first | (intro c; rfl) | skip
          rw [tgetN_modifyAt_self _ _ _ (by rw [listModifyAt_length]; exact hcur)]
          simp [hsp, hfor]
        · simp only [setChunk_toks, setChunk_cur]
          rw [tgetN_modifyAt_self _ _ _ (by rw [listModifyAt_length]; exact hcur)]
          simp [hsp, hfor]
    · rw [if_neg hfor]
      simp only [Bool.not_eq_true] at hfor
      constructor
      · split
        · simp only [setChunk_toks, setChunk_cur]
          apply tgetN_modifyAt_peel (fun c => c.flags.in_sparen) <;> first | (intro c; rfl) | skip
          rw [tgetN_modifyAt_self _ _ _ hcur]
          simp [hsp]
        · simp only [setChunk_toks, setChunk_cur]
          rw [tgetN_modifyAt_self _ _ _ hcur]
          simp [hsp]
      · split
        · simp only [setChunk_toks, setChunk_cur]
          apply tgetN_modifyAt_peel (fun c => c.flags.in_for) <;> first | (intro c; rfl) | skip
          apply tgetN_modifyAt_peel (fun c => c.flags.in_for) <;> first | (intro c; rfl) | skip
          simp [hfor]
        · simp only [setChunk_toks, setChunk_cur]
          apply tgetN_modifyAt_peel (fun c => c.flags.in_for) <;> first | (intro c; rfl) | skip
          simp [hfor]
  · simp only [pcu_sparen_for]
    rw [if_neg hsp]
    exact ⟨by simp [hsp], by simp [hsp]⟩

theorem c5_witness :
    stInFor.frm.sparen_count > 0 ∧
    stInFor.frm.stack.tail.any (fun e => e.etype = .CT_FOR) = true ∧
    ((tgetN (pcu_sparen_for stInFor).toks stInFor.cur).flags.in_sparen =
      ((tgetN stInFor.toks stInFor.cur).flags.in_sparen ||
        decide (stInFor.frm.sparen_count > 0)) ∧
     (tgetN (pcu_sparen_for stInFor).toks stInFor.cur).flags.in_for =
      ((tgetN stInFor.toks stInFor.cur).flags.in_for ||
        (decide (stInFor.frm.sparen_count > 0) &&
         stInFor.frm.stack.tail.any (fun e => e.etype = .CT_FOR)))) :=
  ⟨by decide, by decide, c5_sparen_for_flags stInFor (by decide)⟩

/-! ### C6 -/

/-- C6: on a `#define` directive (the next significant chunk after the `#`
is PP_DEFINE), preproc_start pushes the current frame onto the frame list
and reinitializes the current frame to level = brace_level = 1 with a
PP_DEFINE sentinel stack entry; on the first chunk after the body
(IN_PREPROC cleared while the scan-global in_preproc is PP_DEFINE) the
saved frame is popped back, and the unbalanced-braces warning is emitted
exactly when `pp_warn_unbalanced_if` is on and brace_level differs
from 1. -/
theorem c6_define_frames (cfg : Config) (st st' : PState) (j : Nat)
    (f : ParseFrame) (rest : List ParseFrame) :
    (nextNcNnl st.toks st.cur = some j →
     (tgetN st.toks j).ctype = .CT_PP_DEFINE →
     (preproc_start st).1.bs.frames = st.frm :: st.bs.frames ∧
     (preproc_start st).1.frm = { level := 1, brace_level := 1, stack := [{ etype := .CT_PP_DEFINE }, eofEntry] } ∧
     (preproc_start st).1.bs.in_preproc = .CT_PP_DEFINE) ∧
    (st'.bs.in_preproc = .CT_PP_DEFINE →
     (tgetN st'.toks st'.cur).flags.in_preproc = false →
     st'.bs.frames = f :: rest →
     (bc_leave_define cfg st').frm = f ∧
     (bc_leave_define cfg st').bs.frames = rest ∧
     (bc_leave_define cfg st').bs.in_preproc = .CT_NONE ∧
     (bc_leave_define cfg st').warnings =
       (if cfg.pp_warn_unbalanced_if ∧ st'.frm.brace_level ≠ 1
        then Warn.unbalancedDefine :: st'.warnings else st'.warnings)) := by
  constructor
  · intro hnext hj
    simp only [preproc_start, hnext, hj]
    simp [fl_push]
  · intro hpp hflag hframes
    simp only [bc_leave_define]
    rw [if_pos ⟨by simp [hpp], by simp [hflag]⟩, if_pos hpp]
    by_cases hw : cfg.pp_warn_unbalanced_if = true ∧ ¬ st'.frm.brace_level = 1
    · rw [if_pos hw, if_pos hw]
      simp [fl_pop, addWarn, hframes]
    · rw [if_neg hw, if_neg hw]
      simp [fl_pop, hframes]

theorem c6_witness :
    ((preproc_start stDefine).1.bs.frames = stDefine.frm :: stDefine.bs.frames ∧
     (preproc_start stDefine).1.frm = { level := 1, brace_level := 1, stack := [{ etype := .CT_PP_DEFINE }, eofEntry] } ∧
     (preproc_start stDefine).1.bs.in_preproc = .CT_PP_DEFINE) ∧
    ((bc_leave_define cfgW stLeaveDefine).frm = { stack := [eofEntry] } ∧
     (bc_leave_define cfgW stLeaveDefine).bs.frames = [] ∧
     (bc_leave_define cfgW stLeaveDefine).bs.in_preproc = .CT_NONE ∧
     (bc_leave_define cfgW stLeaveDefine).warnings =
       (if cfgW.pp_warn_unbalanced_if ∧ stLeaveDefine.frm.brace_level ≠ 1
        then Warn.unbalancedDefine :: stLeaveDefine.warnings
        else stLeaveDefine.warnings)) :=
  ⟨(c6_define_frames cfgW stDefine stLeaveDefine 1 { stack := [eofEntry] } []).1
     (by decide) (by decide),
   (c6_define_frames cfgW stDefine stLeaveDefine 1 { stack := [eofEntry] } []).2
     (by decide) (by decide) (by decide)⟩

/-! ### C7 -/

/-- One iteration of the driver loop, stated with explicit before/after
states so a concrete run can be chained step by step. -/
theorem bc_loop_step (cfg : Config) (fuel fuel' : Nat) (st stN : PState)
    (hf : fuel = fuel' + 1)
    (h : bc_step cfg fuel' st = Sum.inr stN) :
    brace_cleanup_loop cfg fuel st = brace_cleanup_loop cfg fuel' stN := by
  subst hf
  simp only [brace_cleanup_loop]
  rw [h]

/-- The driver loop returns a final result as soon as the iteration says
so. -/
theorem bc_loop_done (cfg : Config) (fuel fuel' : Nat) (st : PState)
    (r : PState × Except Err Unit)
    (hf : fuel = fuel' + 1)
    (h : bc_step cfg fuel' st = Sum.inl r) :
    brace_cleanup_loop cfg fuel st = r := by
  subst hf
  simp only [brace_cleanup_loop]
  rw [h]

/-- C7: running the pass on the token stream of `do \x7b x; \x7d while (y);`
reclassifies the `while` to WHILE_OF_DO, its `(` to SPAREN_OPEN and its `)`
to SPAREN_CLOSE, and stamps the trailing semicolon with parent
WHILE_OF_DO; the pass completes without aborting and without warnings. -/
theorem c7_do_while :
    exitCodeOf (brace_cleanup cfgC 64 doWhileToks).2 = none ∧
    (brace_cleanup cfgC 64 doWhileToks).1.warnings = [] ∧
    (tgetN (brace_cleanup cfgC 64 doWhileToks).1.toks 5).ctype = .CT_WHILE_OF_DO ∧
    (tgetN (brace_cleanup cfgC 64 doWhileToks).1.toks 6).ctype = .CT_SPAREN_OPEN ∧
    (tgetN (brace_cleanup cfgC 64 doWhileToks).1.toks 8).ctype = .CT_SPAREN_CLOSE ∧
    (tgetN (brace_cleanup cfgC 64 doWhileToks).1.toks 9).parent_type = .CT_WHILE_OF_DO := by
  have h0 : brace_cleanup cfgC 64 doWhileToks = brace_cleanup_loop cfgC 64 c7S0 := rfl
  have h1 := bc_loop_step cfgC 64 63 c7S0 c7S1 rfl rfl
  have h2 := bc_loop_step cfgC 63 62 c7S1 c7S2 rfl rfl
  have h3 := bc_loop_step cfgC 62 61 c7S2 c7S3 rfl rfl
  have h4 := bc_loop_step cfgC 61 60 c7S3 c7S4 rfl rfl
  have h5 := bc_loop_step cfgC 60 59 c7S4 c7S5 rfl rfl
  have h6 := bc_loop_step cfgC 59 58 c7S5 c7S6 rfl rfl
  have h7 := bc_loop_step cfgC 58 57 c7S6 c7S7 rfl rfl
  have h8 := bc_loop_step cfgC 57 56 c7S7 c7S8 rfl rfl
  have h9 := bc_loop_step cfgC 56 55 c7S8 c7S9 rfl rfl
  have h10 := bc_loop_step cfgC 55 54 c7S9 c7S10 rfl rfl
  have hd := bc_loop_done cfgC 54 53 c7S10 (c7S10, Except.ok ()) rfl rfl
  rw [h0, h1, h2, h3, h4, h5, h6, h7, h8, h9, h10, hd]
  decide

/-! ### C10 -/

/-- C10: (i) `maybe_while_of_do` holds exactly when the previous
significant chunk is flagged IN_PREPROC and is a VBRACE_CLOSE or
BRACE_CLOSE with parent DO; (ii) a WHILE chunk for which it fails is
pushed with stage PAREN1 and keeps its type; (iii) a WHILE chunk for which
it holds is retyped to WHILE_OF_DO and pushed with stage WOD_PAREN; and
(iv) the only other route to WHILE_OF_DO is the WHILE stage of an
enclosing DO entry, where check_complex_statements retypes the chunk. -/
theorem c10_while_of_do (toks : List Chunk) (i : Nat) (sa sb sw : PState)
    (fuel : Nat) (cfg : Config) :
    (maybe_while_of_do toks i = true ↔
      (∃ p, prevNcNnl toks i = some p ∧ (tgetN toks p).flags.in_preproc = true ∧
        ((tgetN toks p).ctype = .CT_VBRACE_CLOSE ∨ (tgetN toks p).ctype = .CT_BRACE_CLOSE) ∧
        (tgetN toks p).parent_type = .CT_DO)) ∧
    ((tgetN sa.toks sa.cur).ctype = .CT_WHILE →
     maybe_while_of_do sa.toks sa.cur = false →
     (pcu_patcls sa).frm.top = { etype := .CT_WHILE, parent := (tgetN sa.toks sa.cur).parent_type, stage := .PAREN1, pcIdx := some sa.cur } ∧
     (pcu_patcls sa).toks = sa.toks) ∧
    ((tgetN sb.toks sb.cur).ctype = .CT_WHILE →
     maybe_while_of_do sb.toks sb.cur = true →
     sb.cur < sb.toks.length →
     (pcu_patcls sb).frm.top = { etype := .CT_WHILE_OF_DO, parent := (tgetN sb.toks sb.cur).parent_type, stage := .WOD_PAREN, pcIdx := some sb.cur } ∧
     (tgetN (pcu_patcls sb).toks sb.cur).ctype = .CT_WHILE_OF_DO) ∧
    (sw.frm.top.stage = BraceStage.WHILE →
     (tgetN sw.toks sw.cur).ctype = .CT_WHILE →
     check_complex_statements fuel cfg sw =
       (setFrm (setChunk sw sw.cur (fun c => { c with ctype := .CT_WHILE_OF_DO }))
          (fun f => f.setTop (fun e => { e with etype := .CT_WHILE_OF_DO, stage := .WOD_PAREN })),
        Except.ok true)) := by
  refine ⟨?_, ?_, ?_, ?_⟩
  · simp only [maybe_while_of_do]
    cases hp : prevNcNnl toks i with
    | none => simp
    | some p =>
      by_cases hpre : (tgetN toks p).flags.in_preproc = true
      · simp [hpre]
      · simp [hpre]
  · intro hw hmwd
    simp only [pcu_patcls, hw, get_token_pattern_class]
    rw [if_neg (by simp [hmwd])]
    constructor
    · simp [setFrm_frm, ParseFrame.pushC, ParseFrame.top, hw]
    · simp [setFrm_toks]
  · intro hw hmwd hcur
    simp only [pcu_patcls, hw, get_token_pattern_class]
    rw [if_pos ⟨trivial, hmwd⟩]
    constructor
    · simp only [setFrm_frm, setChunk_frm, setChunk_cur, setChunk_toks,
        ParseFrame.pushC, ParseFrame.top, List.headD_cons]
      rw [tgetN_modifyAt_self _ _ _ hcur]
    · simp only [setFrm_toks, setChunk_toks]
      rw [tgetN_modifyAt_self _ _ _ hcur]
  · intro hsw hww
    simp only [check_complex_statements]
    rw [if_neg (by simp [hsw])]
    simp only [ccs_else_loop_skip fuel sw (by simp [hsw])]
    rw [if_neg (by simp [hsw]), if_neg (by simp [hsw])]
    simp only [ccs_catch_loop_skip cfg fuel sw (by simp [hsw])]
    rw [if_neg (by simp [hsw]), if_neg (by simp [hsw]), if_neg (by simp [hsw]),
        if_pos hsw, if_pos hww]

theorem c10_witness :
    (maybe_while_of_do stWhileAfterDoPp.toks 1 = true ↔
      (∃ p, prevNcNnl stWhileAfterDoPp.toks 1 = some p ∧
        (tgetN stWhileAfterDoPp.toks p).flags.in_preproc = true ∧
        ((tgetN stWhileAfterDoPp.toks p).ctype = .CT_VBRACE_CLOSE ∨
         (tgetN stWhileAfterDoPp.toks p).ctype = .CT_BRACE_CLOSE) ∧
        (tgetN stWhileAfterDoPp.toks p).parent_type = .CT_DO)) ∧
    ((pcu_patcls stWhileAfterDo).frm.top = { etype := .CT_WHILE, parent := (tgetN stWhileAfterDo.toks stWhileAfterDo.cur).parent_type, stage := .PAREN1, pcIdx := some stWhileAfterDo.cur } ∧
     (pcu_patcls stWhileAfterDo).toks = stWhileAfterDo.toks) ∧
    ((pcu_patcls stWhileAfterDoPp).frm.top = { etype := .CT_WHILE_OF_DO, parent := (tgetN stWhileAfterDoPp.toks stWhileAfterDoPp.cur).parent_type, stage := .WOD_PAREN, pcIdx := some stWhileAfterDoPp.cur } ∧
     (tgetN (pcu_patcls stWhileAfterDoPp).toks stWhileAfterDoPp.cur).ctype = .CT_WHILE_OF_DO) ∧
    (check_complex_statements 5 cfgC stWhileStage =
       (setFrm (setChunk stWhileStage stWhileStage.cur (fun c => { c with ctype := .CT_WHILE_OF_DO }))
          (fun f => f.setTop (fun e => { e with etype := .CT_WHILE_OF_DO, stage := .WOD_PAREN })),
        Except.ok true)) :=
  ⟨(c10_while_of_do stWhileAfterDoPp.toks 1 stWhileAfterDo stWhileAfterDoPp
      stWhileStage 5 cfgC).1,
   (c10_while_of_do stWhileAfterDoPp.toks 1 stWhileAfterDo stWhileAfterDoPp
      stWhileStage 5 cfgC).2.1 (by decide) (by decide),
   (c10_while_of_do stWhileAfterDoPp.toks 1 stWhileAfterDo stWhileAfterDoPp
      stWhileStage 5 cfgC).2.2.1 (by decide) (by decide) (by decide),
   (c10_while_of_do stWhileAfterDoPp.toks 1 stWhileAfterDo stWhileAfterDoPp
      stWhileStage 5 cfgC).2.2.2 (by decide) (by decide)⟩

/-! ### C8: termination of close_statement -/

theorem getLastD_irrel (l : List PSEntry) (h : l ≠ []) (d1 d2 : PSEntry) :
    l.getLastD d1 = l.getLastD d2 := by
  cases l with
  | nil => exact absurd rfl h
  | cons x xs => rw [List.getLastD_cons, List.getLastD_cons]

theorem sentinelOk_of_stack_eq {f f' : ParseFrame} (h : f.stack = f'.stack)
    (hs : sentinelOk f') : sentinelOk f := by
  unfold sentinelOk at *
  rw [h]
  exact hs

theorem two_le_of_stage (f : ParseFrame) (hs : sentinelOk f)
    (h : f.top.stage ≠ BraceStage.NONE) : 2 ≤ f.stack.length := by
  rcases hs with ⟨hne, hlast, -⟩
  rcases hstack : f.stack with _ | ⟨e, _ | ⟨e2, r⟩⟩
  · exact absurd hstack hne
  · exfalso
    apply h
    unfold ParseFrame.top
    rw [hstack] at hlast ⊢
    simpa using hlast
  · simp

theorem two_le_of_vbrace (f : ParseFrame) (hs : sentinelOk f)
    (h : f.top.etype = E_Token.CT_VBRACE_OPEN) : 2 ≤ f.stack.length := by
  rcases hs with ⟨hne, -, hvb⟩
  rcases hstack : f.stack with _ | ⟨e, _ | ⟨e2, r⟩⟩
  · exact absurd hstack hne
  · exfalso
    apply hvb
    unfold ParseFrame.top at h
    rw [hstack] at h ⊢
    simpa using h
  · simp

theorem sentinelOk_pop (f : ParseFrame) (hs : sentinelOk f)
    (h2 : 2 ≤ f.stack.length) :
    sentinelOk (ParseFrame.pop f) ∧
    (ParseFrame.pop f).stack.length + 1 = f.stack.length := by
  rcases hs with ⟨hne, hlast, hvb⟩
  rcases hstack : f.stack with _ | ⟨e, t⟩
  · exact absurd hstack hne
  · have hpop : (ParseFrame.pop f).stack = t := by
      rw [pop_stack_of_len f h2, hstack]
      rfl
    have htne : t ≠ [] := by
      rw [hstack] at h2
      intro ht
      rw [ht] at h2
      simp at h2
    rw [hstack] at hlast hvb
    constructor
    · refine ⟨by rw [hpop]; exact htne, ?_, ?_⟩
      · rw [hpop, getLastD_irrel t htne eofEntry e]
        rw [List.getLastD_cons] at hlast
        exact hlast
      · rw [hpop, getLastD_irrel t htne eofEntry e]
        rw [List.getLastD_cons] at hvb
        exact hvb
    · rw [hpop]
      simp

theorem pop_setTop (f : ParseFrame) (g : PSEntry → PSEntry)
    (h2 : 2 ≤ f.stack.length) :
    ParseFrame.pop (f.setTop g) = ParseFrame.pop f := by
  rcases hstack : f.stack with _ | ⟨e, t⟩
  · rw [hstack] at h2
    simp at h2
  · have ht : 1 ≤ t.length := by
      rw [hstack] at h2
      simpa using h2
    simp only [ParseFrame.pop, ParseFrame.setTop, hstack]
    rw [if_neg (by simp only [List.length_cons]; omega),
        if_neg (by simp only [List.length_cons]; omega)]
    rfl

theorem getLastD_map_shift (j : Nat) (l : List PSEntry) (d : PSEntry) :
    (l.map (PSEntry.shiftIdx j)).getLastD (PSEntry.shiftIdx j d) =
      PSEntry.shiftIdx j (l.getLastD d) := by
  induction l generalizing d with
  | nil => rfl
  | cons x xs ih =>
    rw [List.map_cons, List.getLastD_cons, List.getLastD_cons]
    exact ih x

theorem sentinelOk_shiftIdx (j : Nat) (f : ParseFrame) (hs : sentinelOk f) :
    sentinelOk (f.shiftIdx j) ∧ (f.shiftIdx j).stack.length = f.stack.length := by
  rcases hs with ⟨hne, hlast, hvb⟩
  have hmne : f.stack.map (PSEntry.shiftIdx j) ≠ [] := by simpa using hne
  refine ⟨⟨by simpa [ParseFrame.shiftIdx] using hmne, ?_, ?_⟩, by simp [ParseFrame.shiftIdx]⟩
  · simp only [ParseFrame.shiftIdx]
    rw [getLastD_irrel _ hmne eofEntry (PSEntry.shiftIdx j eofEntry),
        getLastD_map_shift]
    exact hlast
  · simp only [ParseFrame.shiftIdx]
    rw [getLastD_irrel _ hmne eofEntry (PSEntry.shiftIdx j eofEntry),
        getLastD_map_shift]
    exact hvb

theorem insert_vbrace_frm (st : PState) (pos : Option Nat) (after : Bool) :
    (insert_vbrace st pos after).1.frm = st.frm ∨
    ∃ j, (insert_vbrace st pos after).1.frm = st.frm.shiftIdx j := by
  simp only [insert_vbrace]
  split
  · exact Or.inl rfl
  · split
    · exact Or.inr ⟨_, rfl⟩
    · split
      · exact Or.inl rfl
      · split
        · exact Or.inl rfl
        · split
          · exact Or.inl rfl
          · exact Or.inr ⟨_, rfl⟩

theorem iv_sent_len (st : PState) (pos : Option Nat) (after : Bool)
    (hs : sentinelOk st.frm) :
    sentinelOk (insert_vbrace st pos after).1.frm ∧
    (insert_vbrace st pos after).1.frm.stack.length = st.frm.stack.length := by
  rcases insert_vbrace_frm st pos after with h | ⟨j, h⟩ <;> rw [h]
  · exact ⟨hs, rfl⟩
  · exact ⟨(sentinelOk_shiftIdx j st.frm hs).1, (sentinelOk_shiftIdx j st.frm hs).2⟩

theorem close_vb_unconsumed_frm (st : PState) (hs : sentinelOk st.frm)
    (hvb : st.frm.top.etype = E_Token.CT_VBRACE_OPEN) :
    sentinelOk (close_vb_unconsumed st).frm ∧
    (close_vb_unconsumed st).frm.stack.length + 1 = st.frm.stack.length := by
  have h2 : 2 ≤ st.frm.stack.length := two_le_of_vbrace st.frm hs hvb
  have hs2 : sentinelOk (setFrm st (fun f => { f with level := f.level - 1, brace_level := f.brace_level - 1 })).frm :=
    sentinelOk_of_stack_eq rfl hs
  simp only [close_vb_unconsumed]
  simp only [setChunk_frm, setFrm_frm]
  constructor
  · split
    · simp only [setChunk_frm]
      refine (sentinelOk_pop _ (iv_sent_len _ _ _ hs2).1 ?_).1
      rw [(iv_sent_len _ _ _ hs2).2]
      exact h2
    · refine (sentinelOk_pop _ (iv_sent_len _ _ _ hs2).1 ?_).1
      rw [(iv_sent_len _ _ _ hs2).2]
      exact h2
  · split
    · simp only [setChunk_frm]
      rw [(sentinelOk_pop _ (iv_sent_len _ _ _ hs2).1
        (by rw [(iv_sent_len _ _ _ hs2).2]; exact h2)).2]
      exact (iv_sent_len _ _ _ hs2).2
    · rw [(sentinelOk_pop _ (iv_sent_len _ _ _ hs2).1
        (by rw [(iv_sent_len _ _ _ hs2).2]; exact h2)).2]
      exact (iv_sent_len _ _ _ hs2).2

theorem mbind_ne_fuel {α β : Type} (r : PState × Except Err α)
    (f : PState → α → PState × Except Err β)
    (h1 : r.2 ≠ Except.error Err.fuel)
    (h2 : ∀ st a, (f st a).2 ≠ Except.error Err.fuel) :
    (mbind r f).2 ≠ Except.error Err.fuel := by
  rcases r with ⟨st, a⟩
  cases a with
  | ok a => exact h2 st a
  | error e => simpa [mbind] using h1

theorem hcc_go_no_fuel (cs : PState → PState × Except Err Bool) (n : Nat)
    (hcs : ∀ st2, sentinelOk st2.frm → st2.frm.stack.length ≤ n →
      (cs st2).2 ≠ Except.error Err.fuel)
    (st : PState) (hs : sentinelOk st.frm)
    (hl : st.frm.stack.length ≤ n + 1)
    (hstage : st.frm.top.stage ≠ BraceStage.NONE) :
    (handle_complex_close_go cs st).2 ≠ Except.error Err.fuel := by
  have h2 : 2 ≤ st.frm.stack.length := two_le_of_stage st.frm hs hstage
  have hpop := sentinelOk_pop st.frm hs h2
  have hplen : (ParseFrame.pop st.frm).stack.length ≤ n := by omega
  simp only [handle_complex_close_go]
  split
  · split <;> simp
  · split
    · split
      · split
        · apply hcs
          · simp only [setFrm_frm, ParseFrame.setTopStage]
            rw [pop_setTop _ _ h2]
            exact hpop.1
          · simp only [setFrm_frm, ParseFrame.setTopStage]
            rw [pop_setTop _ _ h2]
            exact hplen
        · simp
      · split
        · split
          · apply hcs
            · simp only [setFrm_frm, ParseFrame.setTopStage]
              rw [pop_setTop _ _ h2]
              exact hpop.1
            · simp only [setFrm_frm, ParseFrame.setTopStage]
              rw [pop_setTop _ _ h2]
              exact hplen
          · simp
        · apply hcs
          · simp only [setFrm_frm]
            exact hpop.1
          · simp only [setFrm_frm]
            exact hplen
    · split
      · simp
      · split
        · simp
        · split
          · apply hcs
            · simp only [setFrm_frm]
              exact hpop.1
            · simp only [setFrm_frm]
              exact hplen
          · simp

theorem close_finish_no_fuel (cs : PState → PState × Except Err Bool) (n : Nat)
    (hcs : ∀ st2, sentinelOk st2.frm → st2.frm.stack.length ≤ n →
      (cs st2).2 ≠ Except.error Err.fuel)
    (st : PState) (hs : sentinelOk st.frm)
    (hl : st.frm.stack.length ≤ n + 1) :
    (close_finish cs st).2 ≠ Except.error Err.fuel := by
  unfold close_finish
  split
  · rename_i h
    exact hcc_go_no_fuel cs n hcs st hs hl h
  · simp

theorem close_body_no_fuel (cs : PState → PState × Except Err Bool) (n : Nat)
    (hcs : ∀ st2, sentinelOk st2.frm → st2.frm.stack.length ≤ n →
      (cs st2).2 ≠ Except.error Err.fuel)
    (st : PState) (hs : sentinelOk st.frm)
    (hl : st.frm.stack.length ≤ n + 1) :
    (close_statement_body cs st).2 ≠ Except.error Err.fuel := by
  simp only [close_statement_body]
  split
  · split
    · rename_i hc
      have hsST : sentinelOk
          (setFrm st (fun f => { f with stmt_count := 0, expr_count := 0 })).frm :=
        sentinelOk_of_stack_eq rfl hs
      have hlST : (setFrm st (fun f =>
          { f with stmt_count := 0, expr_count := 0 })).frm.stack.length ≤ n + 1 := hl
      split
      · simp only [setFrm_bs]
        rw [if_pos hc]
        apply close_finish_no_fuel cs n hcs
        · exact (iv_sent_len _ _ _ hsST).1
        · rw [(iv_sent_len _ _ _ hsST).2]
          exact hlST
      · exact close_finish_no_fuel cs n hcs _ hsST hlST
    · rename_i hc
      split
      · rename_i hvb
        apply mbind_ne_fuel
        · apply hcs
          · exact (close_vb_unconsumed_frm _ hs hvb).1
          · have ha := (close_vb_unconsumed_frm _ hs hvb).2
            omega
        · intro st2 a
          simp
      · exact close_finish_no_fuel cs n hcs _ hs hl
  · simp

/-- C8: `close_statement` terminates, the recursion depth being bounded by
the parse-frame stack depth: under the sentinel invariant (nonempty stack
whose bottom entry has stage NONE and is not a virtual-brace opener),
running with fuel at least the stack depth never exhausts the fuel — every
recursive invocation, direct or through handle_complex_close, happens only
after an entry has been popped. -/
theorem c8_close_statement_terminates (fuel : Nat) (st : PState)
    (hs : sentinelOk st.frm) (hl : st.frm.stack.length ≤ fuel) :
    (close_statement fuel st).2 ≠ Except.error Err.fuel := by
  induction fuel generalizing st with
  | zero =>
    exfalso
    rcases hs with ⟨hne, -, -⟩
    exact hne (List.length_eq_zero.mp (Nat.le_zero.mp hl))
  | succ n ih =>
    simp only [close_statement]
    exact close_body_no_fuel (close_statement n) n (fun st2 hs2 hl2 => ih st2 hs2 hl2) st hs hl

theorem c8_witness :
    sentinelOk stCloseVb.frm ∧ stCloseVb.frm.stack.length ≤ 3 ∧
    (close_statement 3 stCloseVb).2 ≠ Except.error Err.fuel :=
  ⟨by decide, by decide, c8_close_statement_terminates 3 stCloseVb (by decide) (by decide)⟩

end BraceCleanup
